import Mathlib

/-!
Verification of the natural-language-to-SQL safety pipeline of the V1
analytics chatbot repository.

The development shallowly embeds the relevant Python modules:

* `app/services/sql_validator.py` (the `SQLValidator` class and its
  check methods),
* `app/services/chat_service.py` (the `ChatService.ask` orchestrator and
  `ChatService._execute_query`),
* `app/services/llm_service.py` (`LLMService._call_llm` usage counters),
* `app/semantic/schema_loader.py` (the `SemanticSchema` lookup caches).

Python strings are modelled as `List Char`; the embedding is faithful for
ASCII text (regex word characters are modelled as the ASCII class
`[A-Za-z0-9_]`).  Clock readings (`time.time()`) are modelled as an abstract
sequence of rational timestamps; `int(x)` on a float is modelled as
truncation toward zero on rationals.  Names follow the source where Lean
permits.
-/

-- ===========================================================================
-- String primitives (Python `str` operations on `List Char`)
-- ===========================================================================

/-- The single-quote character. -/
def squote : Char := Char.ofNat 39

/-- The double-quote character. -/
def dquote : Char := Char.ofNat 34

/-- Whitespace characters stripped by Python `str.strip()` and matched by
regex `\s` (space, tab, newline, carriage return, vertical tab, form feed). -/
def pyIsSpace (c : Char) : Bool :=
  c == ' ' || c == '\t' || c == '\n' || c == '\r' ||
    c == Char.ofNat 11 || c == Char.ofNat 12

/-- Python `str.strip()`: remove leading and trailing whitespace. -/
def stripChars (s : List Char) : List Char :=
  ((s.dropWhile pyIsSpace).reverse.dropWhile pyIsSpace).reverse

/-- Python `str.upper()` (ASCII). -/
def upperChars (s : List Char) : List Char := s.map Char.toUpper

/-- Python `str.lower()` (ASCII). -/
def lowerChars (s : List Char) : List Char := s.map Char.toLower

/-- Python `str.rstrip(c)` for a single character `c`: remove every trailing
occurrence of `c`. -/
def rstripChar (c : Char) (s : List Char) : List Char :=
  (s.reverse.dropWhile (fun x => x == c)).reverse

/-- Python substring containment `nee in hay`. -/
def containsSub (hay nee : List Char) : Bool :=
  match hay with
  | [] => nee.isEmpty
  | _ :: t => List.isPrefixOf nee hay || containsSub t nee

/-- Fuel-driven scan for `countSub` (each step consumes at least one
character, so `hay.length` fuel always suffices). -/
def countSubAux (nee : List Char) : Nat → List Char → Nat
  | 0, _ => 0
  | _, [] => 0
  | fuel + 1, c :: t =>
    if List.isPrefixOf nee (c :: t) then
      1 + countSubAux nee fuel ((c :: t).drop (max 1 nee.length))
    else
      countSubAux nee fuel t

/-- Python `hay.count(nee)`: number of non-overlapping occurrences of `nee`
in `hay`, scanning from the left. -/
def countSub (nee hay : List Char) : Nat := countSubAux nee hay.length hay

/-- Python `str.endswith(suffix)`. -/
def endsWithChars (s suffix : List Char) : Bool :=
  List.isPrefixOf suffix.reverse s.reverse

-- ===========================================================================
-- Regex word boundaries (`re.search(r'\b' + kw + r'\b', text)`)
-- ===========================================================================

/-- Regex word character `\w` (ASCII class `[A-Za-z0-9_]`). -/
def isWordChar (c : Char) : Bool := c.isAlphanum || c == '_'

/-- A `\b` boundary holds before the match when the preceding character, if
any, is not a word character (all denylisted keywords start with a letter). -/
def boundaryOk (prev : Option Char) : Bool :=
  match prev with
  | none => true
  | some p => !(isWordChar p)

/-- A `\b` boundary holds after the match when the following character, if
any, is not a word character (all denylisted keywords end with a letter). -/
def afterOk (rest : List Char) : Bool :=
  match rest with
  | [] => true
  | c :: _ => !(isWordChar c)

/-- Scan for an occurrence of `kw` delimited by word boundaries, carrying the
character preceding the current position. -/
def wbFrom (kw : List Char) (prev : Option Char) (hay : List Char) : Bool :=
  match hay with
  | [] => false
  | c :: cs =>
    (List.isPrefixOf kw hay && boundaryOk prev && afterOk (hay.drop kw.length))
      || wbFrom kw (some c) cs

/-- `re.search(r'\b' + re.escape kw + r'\b', hay)` succeeds, for keywords that
start and end with word characters. -/
def hasWordBoundaryOcc (kw hay : List Char) : Bool := wbFrom kw none hay

-- ===========================================================================
-- sql_validator.py: configuration and result types
-- ===========================================================================

/-- `ValidationErrorType` enum from `sql_validator.py`. -/
inductive ValidationErrorType where
  | DANGEROUS_KEYWORD
  | NON_SELECT_QUERY
  | SYNTAX_ERROR
  | INJECTION_DETECTED
  | INVALID_TABLE
  | INVALID_COLUMN
  | EMPTY_QUERY
  | MULTIPLE_STATEMENTS
deriving DecidableEq, Repr

/-- `ValidationResult` dataclass from `sql_validator.py`. -/
structure ValidationResult where
  is_valid : Bool
  error_message : Option (List Char) := none
  error_type : Option ValidationErrorType := none
  sanitized_sql : Option (List Char) := none
  warnings : Option (List (List Char)) := none
deriving DecidableEq, Repr

/-- A passing check result (`ValidationResult(is_valid=True)`). -/
def validRes : ValidationResult := { is_valid := true }

/-- A failing check result carrying a message and an error type. -/
def invalidRes (msg : List Char) (t : ValidationErrorType) : ValidationResult :=
  { is_valid := false, error_message := some msg, error_type := some t }

/-- The success result of `validate` (`sanitized_sql` set, empty warnings
list collapsed to `None`). -/
def okRes (s : List Char) : ValidationResult :=
  { is_valid := true, sanitized_sql := some s }

@[simp] theorem validRes_is_valid : validRes.is_valid = true := rfl

@[simp] theorem invalidRes_is_valid (m : List Char) (t : ValidationErrorType) :
    (invalidRes m t).is_valid = false := rfl

@[simp] theorem okRes_is_valid (s : List Char) : (okRes s).is_valid = true := rfl

/-- `DANGEROUS_KEYWORDS` set from `sql_validator.py` (in source listing
order; the Python set order only affects which keyword a message names). -/
def DANGEROUS_KEYWORDS : List (List Char) :=
  [ "INSERT".data, "UPDATE".data, "DELETE".data, "MERGE".data, "UPSERT".data,
    "DROP".data, "CREATE".data, "ALTER".data, "TRUNCATE".data, "RENAME".data,
    "GRANT".data, "REVOKE".data, "DENY".data,
    "EXEC".data, "EXECUTE".data, "CALL".data,
    "COMMIT".data, "ROLLBACK".data, "SAVEPOINT".data,
    "COPY".data, "VACUUM".data, "ANALYZE".data, "CLUSTER".data,
    "REINDEX".data, "LOCK".data, "LISTEN".data, "NOTIFY".data,
    "UNLISTEN".data, "LOAD".data,
    "INTO OUTFILE".data, "INTO DUMPFILE".data, "LOAD_FILE".data ]

/-- `SQL_INJECTION_PATTERNS` list from `sql_validator.py`, in source order
(order matters: the scan returns on the first matching pattern). -/
def SQL_INJECTION_PATTERNS : List (List Char) :=
  [ "--".data, "/*".data, "*/".data, "#".data,
    "UNION ALL SELECT".data, "UNION SELECT".data,
    ";--".data, "; --".data, ";/*".data,
    "SLEEP(".data, "WAITFOR".data, "BENCHMARK(".data, "PG_SLEEP(".data,
    [squote, ' ', 'O', 'R', ' ', squote, '1', squote, '=', squote, '1'],
    [squote, ' ', 'O', 'R', ' ', '1', '=', '1'],
    [dquote, ' ', 'O', 'R', ' ', dquote, '1', dquote, '=', dquote, '1'],
    "OR 1=1--".data,
    [squote, ' ', 'A', 'N', 'D', ' ', squote, '1', squote, '=', squote, '1'],
    "EXTRACTVALUE(".data, "UPDATEXML(".data, "EXP(".data,
    "@@VERSION".data, "VERSION()".data, "DATABASE()".data, "USER()".data,
    "CURRENT_USER".data, "SYSTEM_USER".data,
    "LOAD_FILE".data, "INTO OUTFILE".data, "INTO DUMPFILE".data,
    "PG_READ_FILE".data, "PG_WRITE_FILE".data, "LO_IMPORT".data,
    "LO_EXPORT".data ]

/-- `ALLOWED_TABLES` set from `sql_validator.py`. -/
def ALLOWED_TABLES : List (List Char) :=
  [ "sales_analytics".data, "public.sales_analytics".data,
    "stock_gw".data, "public.stock_gw".data ]

/-- Constructor arguments of `SQLValidator.__init__`. -/
structure SQLValidatorCfg where
  allowed_tables : List (List Char)
  max_query_length : Nat
  allow_subqueries : Bool
  allow_cte : Bool
  strict_mode : Bool

/-- The default `SQLValidator()` configuration. -/
def defaultCfg : SQLValidatorCfg :=
  { allowed_tables := ALLOWED_TABLES
    max_query_length := 10000
    allow_subqueries := true
    allow_cte := true
    strict_mode := false }

-- ===========================================================================
-- sql_validator.py: the individual check methods
-- ===========================================================================

/-- `SQLValidator._check_multiple_statements`: a semicolon may appear only as
a trailing terminator. -/
def checkMultipleStatements (sql : List Char) : ValidationResult :=
  if (stripChars (rstripChar ';' sql)).contains ';' then
    invalidRes
      "Multiple SQL statements detected. Only single SELECT queries are allowed.".data
      ValidationErrorType.MULTIPLE_STATEMENTS
  else validRes

/-- First whitespace-separated token of a string (`str.split()[0]`), or
`UNKNOWN` if there is none. -/
def firstKeyword (s : List Char) : List Char :=
  match s.dropWhile pyIsSpace with
  | [] => "UNKNOWN".data
  | l => l.takeWhile (fun c => !(pyIsSpace c))

/-- `SQLValidator._check_is_select_query`: the statement must begin with
`SELECT`, or with `WITH` containing a `SELECT` when CTEs are allowed. -/
def checkIsSelectQuery (cfg : SQLValidatorCfg) (sql_upper : List Char) :
    ValidationResult :=
  if List.isPrefixOf "SELECT".data (stripChars sql_upper) then validRes
  else if List.isPrefixOf "WITH".data (stripChars sql_upper) then
    if cfg.allow_cte then
      if containsSub (stripChars sql_upper) "SELECT".data then validRes
      else
        invalidRes "WITH clause (CTE) must contain a SELECT statement".data
          ValidationErrorType.NON_SELECT_QUERY
    else
      invalidRes "Common Table Expressions (WITH clause) are not allowed".data
        ValidationErrorType.NON_SELECT_QUERY
  else
    invalidRes
      ("Only SELECT queries are allowed. Found: ".data ++
        firstKeyword (stripChars sql_upper))
      ValidationErrorType.NON_SELECT_QUERY

/-- Loop body of `SQLValidator._check_dangerous_keywords`. -/
def kwLoop (sql_upper : List Char) : List (List Char) → ValidationResult
  | [] => validRes
  | kw :: rest =>
    if hasWordBoundaryOcc kw sql_upper then
      invalidRes ("Dangerous SQL keyword detected: ".data ++ kw)
        ValidationErrorType.DANGEROUS_KEYWORD
    else kwLoop sql_upper rest

/-- `SQLValidator._check_dangerous_keywords`: reject any denylisted keyword
occurring with word boundaries. -/
def checkDangerousKeywords (sql_upper : List Char) : ValidationResult :=
  kwLoop sql_upper DANGEROUS_KEYWORDS

/-- Failure result of the injection-pattern scan for pattern `p`. -/
def injRes (p : List Char) : ValidationResult :=
  invalidRes ("Potential SQL injection pattern detected: ".data ++ p)
    ValidationErrorType.INJECTION_DETECTED

/-- Loop body of `SQLValidator._check_injection_patterns`: `--` is excused at
the very end of the query; a pattern containing `UNION` rejects only when
`UNION` occurs more than twice. -/
def injLoop (sql_upper sql_original : List Char) :
    List (List Char) → ValidationResult
  | [] => validRes
  | p :: rest =>
    if containsSub sql_upper (upperChars p) then
      if p == "--".data && endsWithChars (stripChars sql_original) "--".data then
        injLoop sql_upper sql_original rest
      else if containsSub (upperChars p) "UNION".data then
        if 2 < countSub "UNION".data sql_upper then injRes p
        else injLoop sql_upper sql_original rest
      else injRes p
    else injLoop sql_upper sql_original rest

/-- `SQLValidator._check_injection_patterns`. -/
def checkInjectionPatterns (sql_upper sql_original : List Char) :
    ValidationResult :=
  injLoop sql_upper sql_original SQL_INJECTION_PATTERNS

-- Table-name extraction: regex `\bFROM\s+(["\']?[\w.]+["\']?)` (and JOIN).

/-- Characters of the regex class `[\w.]`. -/
def isWordDot (c : Char) : Bool := isWordChar c || c == '.'

/-- A quote character of the regex class `["\']`. -/
def isQuoteChar (c : Char) : Bool := c == dquote || c == squote

/-- Try to match `\bKW\s+(["\']?[\w.]+["\']?)` at the current position and
return the captured group. -/
def tryTableMatch (kw : List Char) (prev : Option Char) (l : List Char) :
    Option (List Char) :=
  if List.isPrefixOf kw l && boundaryOk prev then
    let r1 := l.drop kw.length
    let ws := r1.takeWhile pyIsSpace
    if ws.isEmpty then none
    else
      let r2 := r1.drop ws.length
      match r2 with
      | [] => none
      | c :: cs =>
        if isQuoteChar c then
          let run := cs.takeWhile isWordDot
          if run.isEmpty then none
          else
            match cs.drop run.length with
            | q :: _ => if isQuoteChar q then some (c :: (run ++ [q])) else some (c :: run)
            | [] => some (c :: run)
        else
          let run := r2.takeWhile isWordDot
          if run.isEmpty then none
          else
            match r2.drop run.length with
            | q :: _ => if isQuoteChar q then some (run ++ [q]) else some run
            | [] => some run
  else none

/-- `re.findall` of the table pattern: scan every position left to right.
(`findall` resumes after each match; on the deduplicated set of captures the
two scans agree except for matches overlapping a previous match, which
requires a quoted table name containing `FROM`/`JOIN` itself.) -/
def findTableRefs (kw : List Char) (prev : Option Char) (hay : List Char) :
    List (List Char) :=
  match hay with
  | [] => []
  | c :: cs =>
    match tryTableMatch kw prev hay with
    | some cap => cap :: findTableRefs kw (some c) cs
    | none => findTableRefs kw (some c) cs

/-- Python `table.strip('"\'')`: remove every leading and trailing quote. -/
def stripQuotes (t : List Char) : List Char :=
  ((t.dropWhile isQuoteChar).reverse.dropWhile isQuoteChar).reverse

/-- Python `', '.join(tables)`. -/
def joinSep (sep : List Char) : List (List Char) → List Char
  | [] => []
  | [x] => x
  | x :: xs => x ++ sep ++ joinSep sep xs

/-- `SQLValidator._check_table_names`: extract names after FROM/JOIN, clean
them, and (only when subqueries are disallowed) reject any name outside the
allowlist.  With subqueries allowed, unknown names are merely logged. -/
def checkTableNames (cfg : SQLValidatorCfg) (sql : List Char) :
    ValidationResult :=
  match ((findTableRefs "FROM".data none (upperChars sql) ++
      findTableRefs "JOIN".data none (upperChars sql)).map
        (fun t => lowerChars (stripQuotes t))).find?
      (fun t => !((cfg.allowed_tables.map lowerChars).contains t)) with
  | none => validRes
  | some t =>
    if cfg.allow_subqueries then validRes
    else
      invalidRes
        ("Table not allowed: ".data ++ t ++ ". Allowed tables: ".data ++
          joinSep ", ".data cfg.allowed_tables)
        ValidationErrorType.INVALID_TABLE

-- ===========================================================================
-- sql_validator.py: SQLValidator.validate
-- ===========================================================================

/-- `SQLValidator.validate`: run the checks in source order and return the
first failure, else the success verdict with `sanitized_sql` equal to the
stripped input (the `warnings` list stays empty and collapses to `None`). -/
def validate (cfg : SQLValidatorCfg) (sql : List Char) : ValidationResult :=
  if (stripChars sql).isEmpty = true then
    invalidRes "SQL query is empty".data ValidationErrorType.EMPTY_QUERY
  else if cfg.max_query_length < (stripChars sql).length then
    invalidRes
      ("SQL query exceeds maximum length of ".data ++
        (toString cfg.max_query_length).data ++ " characters".data)
      ValidationErrorType.SYNTAX_ERROR
  else if (checkMultipleStatements (stripChars sql)).is_valid = false then
    checkMultipleStatements (stripChars sql)
  else if (checkIsSelectQuery cfg (upperChars (stripChars sql))).is_valid = false then
    checkIsSelectQuery cfg (upperChars (stripChars sql))
  else if (checkDangerousKeywords (upperChars (stripChars sql))).is_valid = false then
    checkDangerousKeywords (upperChars (stripChars sql))
  else if (checkInjectionPatterns (upperChars (stripChars sql)) (stripChars sql)).is_valid = false then
    checkInjectionPatterns (upperChars (stripChars sql)) (stripChars sql)
  else if (checkTableNames cfg (stripChars sql)).is_valid = false then
    checkTableNames cfg (stripChars sql)
  else okRes (stripChars sql)

/-- `validate` lifted to `Optional[str]` inputs: Python `if not sql` treats
`None` exactly like the empty string. -/
def validateOpt (cfg : SQLValidatorCfg) (sql : Option (List Char)) :
    ValidationResult :=
  validate cfg (sql.getD [])

example : (validate defaultCfg "SELECT * FROM sales_analytics WHERE 1=1".data).is_valid = true := by decide

example : (validate defaultCfg "SELECT 1; DROP TABLE x".data).error_type =
    some ValidationErrorType.MULTIPLE_STATEMENTS := by decide

example : (validate defaultCfg "SELECT DROP".data).error_type =
    some ValidationErrorType.DANGEROUS_KEYWORD := by decide

example : (validate defaultCfg "SELECT updated_at FROM sales_analytics".data).is_valid = true := by decide

example : (validate defaultCfg "SELECT UNION UNION UNION".data).is_valid = true := by decide

example : (validate defaultCfg "SELECT * FROM sales_analytics;".data).sanitized_sql =
    some "SELECT * FROM sales_analytics;".data := by decide

-- ===========================================================================
-- Spec-side definitions (for refinement-style comparison with `validate`)
-- ===========================================================================

/-- The inline empty-input check of `validate` (check 1), as a standalone
result. -/
def checkEmptyInput (sql : List Char) : ValidationResult :=
  if (stripChars sql).isEmpty = true then
    invalidRes "SQL query is empty".data ValidationErrorType.EMPTY_QUERY
  else validRes

/-- The inline length check of `validate` (check 2), as a standalone
result. -/
def checkQueryLength (cfg : SQLValidatorCfg) (sql : List Char) :
    ValidationResult :=
  if cfg.max_query_length < (stripChars sql).length then
    invalidRes
      ("SQL query exceeds maximum length of ".data ++
        (toString cfg.max_query_length).data ++ " characters".data)
      ValidationErrorType.SYNTAX_ERROR
  else validRes

/-- Modelled from the spec: run a list of check verdicts in order and return
the verdict of the first failing check, else the success verdict. -/
def firstFailure : List ValidationResult → ValidationResult → ValidationResult
  | [], ok => ok
  | r :: rs, ok => if r.is_valid = true then firstFailure rs ok else r

/-- The seven check verdicts in the fixed order stated by the spec:
empty input, length, multiple statements, SELECT/WITH requirement,
dangerous keywords, injection patterns, table allowlist. -/
def checksInOrder (cfg : SQLValidatorCfg) (sql : List Char) :
    List ValidationResult :=
  [ checkEmptyInput sql,
    checkQueryLength cfg sql,
    checkMultipleStatements (stripChars sql),
    checkIsSelectQuery cfg (upperChars (stripChars sql)),
    checkDangerousKeywords (upperChars (stripChars sql)),
    checkInjectionPatterns (upperChars (stripChars sql)) (stripChars sql),
    checkTableNames cfg (stripChars sql) ]

/-- Modelled from the spec: the sanitized query the spec describes, namely
the original text trimmed AND with a single trailing statement separator
stripped.  (The code only trims; this definition exists to be compared with
what `validate` actually returns.) -/
def specSanitizedQuery (sql : List Char) : List Char :=
  let t := stripChars sql
  if endsWithChars t ";".data then t.dropLast else t

/-- The two UNION-based injection patterns. -/
def unionPatterns : List (List Char) :=
  [ "UNION ALL SELECT".data, "UNION SELECT".data ]

-- ===========================================================================
-- Shape lemmas for the check results
-- ===========================================================================

/-- Well-formedness of a `ValidationResult` as claimed by the spec: a valid
verdict carries a sanitized query and no error fields; an invalid verdict
carries both error fields and no sanitized query. -/
def wellFormed (r : ValidationResult) : Prop :=
  (r.is_valid = true →
    r.sanitized_sql.isSome = true ∧ r.error_message = none ∧ r.error_type = none) ∧
  (r.is_valid = false →
    r.error_message.isSome = true ∧ r.error_type.isSome = true ∧
      r.sanitized_sql = none)

theorem checkMultipleStatements_shape (s : List Char) :
    checkMultipleStatements s = validRes ∨
      ∃ m t, checkMultipleStatements s = invalidRes m t := by
  unfold checkMultipleStatements
  dsimp only
  split
  · exact Or.inr ⟨_, _, rfl⟩
  · exact Or.inl rfl

theorem checkIsSelectQuery_shape (cfg : SQLValidatorCfg) (s : List Char) :
    checkIsSelectQuery cfg s = validRes ∨
      ∃ m t, checkIsSelectQuery cfg s = invalidRes m t := by
  unfold checkIsSelectQuery
  dsimp only
  repeat' split
  all_goals first | exact Or.inl rfl | exact Or.inr ⟨_, _, rfl⟩

theorem kwLoop_shape (su : List Char) (kws : List (List Char)) :
    kwLoop su kws = validRes ∨ ∃ m t, kwLoop su kws = invalidRes m t := by
  induction kws with
  | nil => exact Or.inl rfl
  | cons kw rest ih =>
    unfold kwLoop
    split
    · exact Or.inr ⟨_, _, rfl⟩
    · exact ih

theorem injLoop_shape (su so : List Char) (ps : List (List Char)) :
    injLoop su so ps = validRes ∨ ∃ m t, injLoop su so ps = invalidRes m t := by
  induction ps with
  | nil => exact Or.inl rfl
  | cons p rest ih =>
    unfold injLoop injRes
    repeat' split
    all_goals first | exact Or.inr ⟨_, _, rfl⟩ | exact ih

theorem checkTableNames_shape (cfg : SQLValidatorCfg) (s : List Char) :
    checkTableNames cfg s = validRes ∨
      ∃ m t, checkTableNames cfg s = invalidRes m t := by
  unfold checkTableNames
  dsimp only
  repeat' split
  all_goals first | exact Or.inl rfl | exact Or.inr ⟨_, _, rfl⟩

/-- Every run of `validate` produces either the success verdict on the
stripped input or some `invalidRes`. -/
theorem validate_shape (cfg : SQLValidatorCfg) (sql : List Char) :
    validate cfg sql = okRes (stripChars sql) ∨
      ∃ m t, validate cfg sql = invalidRes m t := by
  unfold validate
  split_ifs with h1 h2 h3 h4 h5 h6 h7
  · exact Or.inr ⟨_, _, rfl⟩
  · exact Or.inr ⟨_, _, rfl⟩
  · rcases checkMultipleStatements_shape (stripChars sql) with h | ⟨m, t, h⟩
    · rw [h] at h3; simp at h3
    · exact Or.inr ⟨m, t, h⟩
  · rcases checkIsSelectQuery_shape cfg (upperChars (stripChars sql)) with h | ⟨m, t, h⟩
    · rw [h] at h4; simp at h4
    · exact Or.inr ⟨m, t, h⟩
  · rcases kwLoop_shape (upperChars (stripChars sql)) DANGEROUS_KEYWORDS with h | ⟨m, t, h⟩
    · rw [checkDangerousKeywords, h] at h5; simp at h5
    · exact Or.inr ⟨m, t, h⟩
  · rcases injLoop_shape (upperChars (stripChars sql)) (stripChars sql)
        SQL_INJECTION_PATTERNS with h | ⟨m, t, h⟩
    · rw [checkInjectionPatterns, h] at h6; simp at h6
    · exact Or.inr ⟨m, t, h⟩
  · rcases checkTableNames_shape cfg (stripChars sql) with h | ⟨m, t, h⟩
    · rw [h] at h7; simp at h7
    · exact Or.inr ⟨m, t, h⟩
  · exact Or.inl rfl

-- ===========================================================================
-- Lemmas about the dangerous-keyword loop
-- ===========================================================================

theorem kwLoop_of_any (su : List Char) (kws : List (List Char))
    (h : (kws.any fun kw => hasWordBoundaryOcc kw su) = true) :
    (kwLoop su kws).is_valid = false ∧
      (kwLoop su kws).error_type = some ValidationErrorType.DANGEROUS_KEYWORD := by
  induction kws with
  | nil => simp at h
  | cons kw rest ih =>
    simp only [List.any_cons, Bool.or_eq_true] at h
    by_cases hk : hasWordBoundaryOcc kw su = true
    · unfold kwLoop
      rw [if_pos hk]
      exact ⟨rfl, rfl⟩
    · unfold kwLoop
      rw [if_neg hk]
      exact ih (h.resolve_left hk)

theorem kwLoop_of_none (su : List Char) (kws : List (List Char))
    (h : ∀ kw ∈ kws, hasWordBoundaryOcc kw su = false) :
    kwLoop su kws = validRes := by
  induction kws with
  | nil => rfl
  | cons kw rest ih =>
    unfold kwLoop
    rw [if_neg (by simp [h kw (by simp)])]
    exact ih fun k hk => h k (by simp [hk])

-- ===========================================================================
-- C1: word-boundary matching of the keyword denylist
-- ===========================================================================

/-- C1.  For every candidate string that passes the earlier checks (empty
input, length, multiple statements, SELECT/WITH requirement) and whose
upper-cased, trimmed text contains some denylisted keyword as a standalone
word (word-boundary occurrence), `validate` returns `is_valid = false` with
`error_type = DANGEROUS_KEYWORD` — case and surrounding whitespace are
normalised away by the upper/strip preprocessing; and whenever no keyword
occurs with word boundaries (in particular when keywords occur only inside
longer identifiers such as `updated_at`), the dangerous-keyword check
passes. -/
theorem C1_keyword_denylist (cfg : SQLValidatorCfg) (sql : List Char)
    (h1 : (stripChars sql).isEmpty = false)
    (h2 : (stripChars sql).length ≤ cfg.max_query_length)
    (h3 : (checkMultipleStatements (stripChars sql)).is_valid = true)
    (h4 : (checkIsSelectQuery cfg (upperChars (stripChars sql))).is_valid = true) :
    (((DANGEROUS_KEYWORDS.any fun kw =>
        hasWordBoundaryOcc kw (upperChars (stripChars sql))) = true →
      (validate cfg sql).is_valid = false ∧
        (validate cfg sql).error_type = some ValidationErrorType.DANGEROUS_KEYWORD) ∧
    ((∀ kw ∈ DANGEROUS_KEYWORDS,
        hasWordBoundaryOcc kw (upperChars (stripChars sql)) = false) →
      checkDangerousKeywords (upperChars (stripChars sql)) = validRes)) := by
  constructor
  · intro hany
    have hkw := kwLoop_of_any (upperChars (stripChars sql)) DANGEROUS_KEYWORDS hany
    have h2' : ¬ (cfg.max_query_length < (stripChars sql).length) := by omega
    have hval : validate cfg sql =
        checkDangerousKeywords (upperChars (stripChars sql)) := by
      unfold validate
      rw [if_neg (by simp [h1]), if_neg h2', if_neg (by simp [h3]),
        if_neg (by simp [h4]), if_pos (by exact hkw.1)]
    rw [hval]
    exact hkw
  · intro hnone
    exact kwLoop_of_none _ _ hnone

/-- Witness for C1 at the concrete input `"SELECT DROP"`. -/
theorem C1_keyword_denylist_witness :
    (validate defaultCfg "SELECT DROP".data).is_valid = false ∧
    (validate defaultCfg "SELECT DROP".data).error_type =
      some ValidationErrorType.DANGEROUS_KEYWORD :=
  (C1_keyword_denylist defaultCfg "SELECT DROP".data (by decide) (by decide)
    (by decide) (by decide)).1 (by decide)

-- ===========================================================================
-- C2: fixed check order, first failure wins
-- ===========================================================================

/-- C2.  `validate` runs its checks in the fixed order empty-input, length,
multiple-statements, SELECT/WITH requirement, dangerous keywords, injection
patterns, table allowlist, and returns the verdict of the first failing
check (it is a pure function, so the failure reason is deterministic); and
`validate "SELECT 1; DROP TABLE x"` fails with `MULTIPLE_STATEMENTS`
— the multiple-statement check fires before the keyword scan. -/
theorem C2_check_order :
    (∀ (cfg : SQLValidatorCfg) (sql : List Char),
      validate cfg sql =
        firstFailure (checksInOrder cfg sql) (okRes (stripChars sql))) ∧
    (validate defaultCfg "SELECT 1; DROP TABLE x".data).is_valid = false ∧
    (validate defaultCfg "SELECT 1; DROP TABLE x".data).error_type =
      some ValidationErrorType.MULTIPLE_STATEMENTS := by
  refine ⟨?_, by decide, by decide⟩
  intro cfg sql
  by_cases h1 : (stripChars sql).isEmpty = true
  · simp [validate, checksInOrder, firstFailure, checkEmptyInput, checkQueryLength, h1]
  · by_cases h2 : cfg.max_query_length < (stripChars sql).length
    · simp [validate, checksInOrder, firstFailure, checkEmptyInput,
        checkQueryLength, h1, h2]
    · cases h3 : (checkMultipleStatements (stripChars sql)).is_valid with
      | false =>
        simp [validate, checksInOrder, firstFailure, checkEmptyInput,
          checkQueryLength, h1, h2, h3]
      | true =>
        cases h4 : (checkIsSelectQuery cfg (upperChars (stripChars sql))).is_valid with
        | false =>
          simp [validate, checksInOrder, firstFailure, checkEmptyInput,
            checkQueryLength, h1, h2, h3, h4]
        | true =>
          cases h5 : (checkDangerousKeywords (upperChars (stripChars sql))).is_valid with
          | false =>
            simp [validate, checksInOrder, firstFailure, checkEmptyInput,
              checkQueryLength, h1, h2, h3, h4, h5]
          | true =>
            cases h6 : (checkInjectionPatterns (upperChars (stripChars sql))
                (stripChars sql)).is_valid with
            | false =>
              simp [validate, checksInOrder, firstFailure, checkEmptyInput,
                checkQueryLength, h1, h2, h3, h4, h5, h6]
            | true =>
              cases h7 : (checkTableNames cfg (stripChars sql)).is_valid with
              | false =>
                simp [validate, checksInOrder, firstFailure, checkEmptyInput,
                  checkQueryLength, h1, h2, h3, h4, h5, h6, h7]
              | true =>
                simp [validate, checksInOrder, firstFailure, checkEmptyInput,
                  checkQueryLength, h1, h2, h3, h4, h5, h6, h7]

-- ===========================================================================
-- C4: what `sanitized_sql` actually is
-- ===========================================================================

/-- C4 counterexample.  The claim says the sanitized query is the trimmed
input with a single trailing `;` stripped; but on
`"SELECT * FROM sales_analytics;"` the verdict is valid and `sanitized_sql`
retains the trailing separator, differing from the spec-described value. -/
theorem C4_counterexample :
    (validate defaultCfg "SELECT * FROM sales_analytics;".data).is_valid = true ∧
    (validate defaultCfg "SELECT * FROM sales_analytics;".data).sanitized_sql ≠
      some (specSanitizedQuery "SELECT * FROM sales_analytics;".data) ∧
    (validate defaultCfg "SELECT * FROM sales_analytics;".data).sanitized_sql =
      some "SELECT * FROM sales_analytics;".data := by
  refine ⟨by decide, ?_, by decide⟩
  decide

/-- C4 (amended).  Whenever `validate` returns `is_valid = true`, the
verdict's `sanitized_sql` is exactly the original input trimmed of
surrounding whitespace (a trailing `;` is NOT stripped), and is never
otherwise rewritten; in particular
`validate "SELECT * FROM sales_analytics WHERE 1=1"` is valid with
`sanitized_sql` equal to the trimmed input. -/
theorem C4_sanitized_is_trimmed :
    (∀ (cfg : SQLValidatorCfg) (sql : List Char),
      (validate cfg sql).is_valid = true →
      (validate cfg sql).sanitized_sql = some (stripChars sql)) ∧
    (validate defaultCfg "SELECT * FROM sales_analytics WHERE 1=1".data).is_valid
        = true ∧
    (validate defaultCfg "SELECT * FROM sales_analytics WHERE 1=1".data).sanitized_sql
        = some "SELECT * FROM sales_analytics WHERE 1=1".data := by
  refine ⟨?_, by decide, by decide⟩
  intro cfg sql hv
  rcases validate_shape cfg sql with h | ⟨m, t, h⟩
  · rw [h]; rfl
  · rw [h] at hv
    simp [invalidRes] at hv

/-- Witness for the amended C4 at the concrete claimed example. -/
theorem C4_sanitized_is_trimmed_witness :
    (validate defaultCfg "SELECT * FROM sales_analytics WHERE 1=1".data).sanitized_sql
      = some (stripChars "SELECT * FROM sales_analytics WHERE 1=1".data) :=
  C4_sanitized_is_trimmed.1 defaultCfg
    "SELECT * FROM sales_analytics WHERE 1=1".data (by decide)

-- ===========================================================================
-- C5: UNION tolerance in the injection-pattern check
-- ===========================================================================

/-- C5 counterexample.  `"SELECT UNION UNION UNION"` passes all the earlier
checks, contains `UNION` three times (more than twice), yet `validate`
accepts it — no rejection on the UNION patterns occurs, because neither
`UNION SELECT` nor `UNION ALL SELECT` appears as a substring.  This refutes
"a rejection on the UNION patterns occurs exactly when the number of
occurrences of UNION exceeds two". -/
theorem C5_counterexample :
    2 < countSub "UNION".data
        (upperChars (stripChars "SELECT UNION UNION UNION".data)) ∧
    (validate defaultCfg "SELECT UNION UNION UNION".data).is_valid = true := by
  constructor
  · decide
  · decide

theorem injLoop_non_union_absent (su so : List Char) (ps : List (List Char))
    (h : ∀ p ∈ ps, p ∉ unionPatterns → containsSub su (upperChars p) = false) :
    ((injLoop su so ps).is_valid = false ↔
      ((∃ p ∈ ps, p ∈ unionPatterns ∧ containsSub su (upperChars p) = true) ∧
        2 < countSub "UNION".data su)) := by
  induction ps with
  | nil => simp [injLoop, validRes]
  | cons p rest ih =>
    have hrest : ∀ q ∈ rest, q ∉ unionPatterns →
        containsSub su (upperChars q) = false :=
      fun q hq => h q (by simp [hq])
    by_cases hu : p ∈ unionPatterns
    · have hdash : (p == "--".data) = false := by
        rcases (by simpa [unionPatterns] using hu : p = "UNION ALL SELECT".data ∨
            p = "UNION SELECT".data) with rfl | rfl <;> decide
      have hpu : containsSub (upperChars p) "UNION".data = true := by
        rcases (by simpa [unionPatterns] using hu : p = "UNION ALL SELECT".data ∨
            p = "UNION SELECT".data) with rfl | rfl <;> decide
      by_cases hc : containsSub su (upperChars p) = true
      · unfold injLoop
        rw [if_pos hc, if_neg (by simp [hdash]), if_pos hpu]
        by_cases hcount : 2 < countSub "UNION".data su
        · rw [if_pos hcount]
          constructor
          · intro _
            exact ⟨⟨p, by simp, hu, hc⟩, hcount⟩
          · intro _
            rfl
        · rw [if_neg hcount]
          rw [ih hrest]
          constructor
          · rintro ⟨_, hcnt⟩
            exact absurd hcnt hcount
          · rintro ⟨_, hcnt⟩
            exact absurd hcnt hcount
      · unfold injLoop
        rw [if_neg hc, ih hrest]
        constructor
        · rintro ⟨⟨q, hq, hqu, hqc⟩, hcnt⟩
          exact ⟨⟨q, by simp [hq], hqu, hqc⟩, hcnt⟩
        · rintro ⟨⟨q, hq, hqu, hqc⟩, hcnt⟩
          rcases List.mem_cons.mp hq with rfl | hq2
          · exact absurd hqc (by simp [hc])
          · exact ⟨⟨q, hq2, hqu, hqc⟩, hcnt⟩
    · have hc : containsSub su (upperChars p) = false := h p (by simp) hu
      unfold injLoop
      rw [if_neg (by simp [hc]), ih hrest]
      constructor
      · rintro ⟨⟨q, hq, hqu, hqc⟩, hcnt⟩
        exact ⟨⟨q, by simp [hq], hqu, hqc⟩, hcnt⟩
      · rintro ⟨⟨q, hq, hqu, hqc⟩, hcnt⟩
        rcases List.mem_cons.mp hq with rfl | hq2
        · exact absurd hqu hu
        · exact ⟨⟨q, hq2, hqu, hqc⟩, hcnt⟩

/-- C5 (amended).  For queries containing none of the non-UNION injection
pattern strings, the injection-pattern check rejects exactly when one of the
UNION patterns (`UNION SELECT` / `UNION ALL SELECT`) appears as a substring
AND `UNION` occurs more than twice in the (upper-cased) statement; a single
or double `UNION` is tolerated. -/
theorem C5_union_tolerance (su so : List Char)
    (h : ∀ p ∈ SQL_INJECTION_PATTERNS, p ∉ unionPatterns →
        containsSub su (upperChars p) = false) :
    ((checkInjectionPatterns su so).is_valid = false ↔
      ((containsSub su "UNION ALL SELECT".data = true ∨
        containsSub su "UNION SELECT".data = true) ∧
        2 < countSub "UNION".data su)) := by
  rw [checkInjectionPatterns, injLoop_non_union_absent su so _ h]
  constructor
  · rintro ⟨⟨p, _, hu, hc⟩, hcnt⟩
    refine ⟨?_, hcnt⟩
    rcases (by simpa [unionPatterns] using hu : p = "UNION ALL SELECT".data ∨
        p = "UNION SELECT".data) with rfl | rfl
    · left
      rw [show upperChars "UNION ALL SELECT".data = "UNION ALL SELECT".data
        from by decide] at hc
      exact hc
    · right
      rw [show upperChars "UNION SELECT".data = "UNION SELECT".data
        from by decide] at hc
      exact hc
  · rintro ⟨hor, hcnt⟩
    refine ⟨?_, hcnt⟩
    rcases hor with hc | hc
    · exact ⟨"UNION ALL SELECT".data, by decide, by decide,
        by rw [show upperChars "UNION ALL SELECT".data = "UNION ALL SELECT".data
          from by decide]; exact hc⟩
    · exact ⟨"UNION SELECT".data, by decide, by decide,
        by rw [show upperChars "UNION SELECT".data = "UNION SELECT".data
          from by decide]; exact hc⟩

/-- Witness for the amended C5: a triple-UNION query is rejected by the
injection-pattern check. -/
theorem C5_union_tolerance_witness :
    (checkInjectionPatterns
      "SELECT 1 UNION SELECT 2 UNION SELECT 3 UNION SELECT 4".data
      "SELECT 1 UNION SELECT 2 UNION SELECT 3 UNION SELECT 4".data).is_valid
      = false :=
  (C5_union_tolerance
    "SELECT 1 UNION SELECT 2 UNION SELECT 3 UNION SELECT 4".data
    "SELECT 1 UNION SELECT 2 UNION SELECT 3 UNION SELECT 4".data
    (by decide)).mpr (by decide)

-- ===========================================================================
-- C10: totality and well-formedness of validate
-- ===========================================================================

/-- C10.  `validate` is a total function of its input (it is defined for
every string, and `None` behaves like the empty string via `validateOpt`),
and every result is well-formed: a valid verdict carries `sanitized_sql` and
no error fields, an invalid verdict carries `error_message` and `error_type`
and no `sanitized_sql`. -/
theorem C10_validate_total_wellformed (cfg : SQLValidatorCfg)
    (sql : Option (List Char)) : wellFormed (validateOpt cfg sql) := by
  show wellFormed (validate cfg (sql.getD []))
  rcases validate_shape cfg (sql.getD []) with h | ⟨m, t, h⟩ <;> rw [h]
  · exact ⟨fun _ => ⟨rfl, rfl, rfl⟩, fun hf => by simp [okRes] at hf⟩
  · exact ⟨fun hv => by simp [invalidRes] at hv, fun _ => ⟨rfl, rfl, rfl⟩⟩

/-- Witness for C10 at the `None` input. -/
theorem C10_validate_total_wellformed_witness :
    wellFormed (validateOpt defaultCfg none) :=
  C10_validate_total_wellformed defaultCfg none

-- ===========================================================================
-- chat_service.py: values, rows, query execution
-- ===========================================================================

/-- A database cell value as seen by `_execute_query`'s marshalling loop:
`None`, the primitive types kept as-is, a non-primitive numeric-convertible
value (e.g. `Decimal`), or a non-primitive value with only a string form. -/
inductive PyVal where
  | vNone
  | vInt (i : Int)
  | vFloat (q : ℚ)
  | vStr (s : List Char)
  | vBool (b : Bool)
  | vNum (q : ℚ)
  | vOther (s : List Char)
deriving DecidableEq

/-- A result row: an ordered column-name-to-value mapping. -/
def Row : Type := List ((List Char) × PyVal)

/-- The per-cell conversion of `_execute_query`: `None` stays, primitives
stay, other values are coerced to float when numeric-convertible, else to
their string representation. -/
def convertVal : PyVal → PyVal
  | .vNone => .vNone
  | .vInt i => .vInt i
  | .vFloat q => .vFloat q
  | .vStr s => .vStr s
  | .vBool b => .vBool b
  | .vNum q => .vFloat q
  | .vOther s => .vStr s

/-- Row marshalling of `_execute_query` (column order preserved). -/
def convertRow (r : Row) : Row :=
  r.map fun p => (p.1, convertVal p.2)

/-- Outcome of dispatching a statement to the database: the fetched raw
rows, or a raised exception with message `str(e)`. -/
inductive ExecOutcome where
  | ok (rows : List Row)
  | exn (msg : List Char)

/-- The statement text actually dispatched by `_execute_query`: when the
upper-cased query does not contain `LIMIT`, a `LIMIT max_results` clause is
appended after stripping trailing semicolons. -/
def dispatchSql (max_results : Nat) (sql : List Char) : List Char :=
  if containsSub (upperChars sql) "LIMIT".data then sql
  else rstripChar ';' sql ++ " LIMIT ".data ++ (toString max_results).data

/-- `ChatService._execute_query`: dispatch the (possibly LIMIT-augmented)
statement and marshal the fetched rows. -/
def execute_query (max_results : Nat) (db : List Char → ExecOutcome)
    (sql : List Char) : ExecOutcome :=
  match db (dispatchSql max_results sql) with
  | .exn e => .exn e
  | .ok raws => .ok (raws.map convertRow)

/-- A trailing `LIMIT n` clause as appended by `_execute_query`. -/
def hasTrailingLimit (q : List Char) (n : Nat) : Prop :=
  ∃ pre, q = pre ++ (" LIMIT ".data ++ (toString n).data)

-- ===========================================================================
-- llm_service.py: responses and usage counters
-- ===========================================================================

/-- `LLMResponse` dataclass from `llm_service.py`. -/
structure LLMResponse where
  content : List Char
  model : List Char
  prompt_tokens : Nat
  completion_tokens : Nat
  total_tokens : Nat
  success : Bool
  error : Option (List Char) := none
deriving DecidableEq

/-- `LLMResponse.cost_estimate`: GPT-4o-mini pricing, $0.15 per 1M input
tokens and $0.60 per 1M output tokens. -/
def cost_estimate (r : LLMResponse) : ℚ :=
  (r.prompt_tokens : ℚ) / 1000000 * (15 / 100) +
    (r.completion_tokens : ℚ) / 1000000 * (60 / 100)

/-- The process-wide usage counters of `LLMService`. -/
structure LLMUsage where
  total_tokens_used : Nat
  total_requests : Nat
deriving DecidableEq

/-- Outcome of the underlying OpenAI API call inside `_call_llm`: a
successful completion (content, model, token usage) or one of the four
handled exception classes. -/
inductive LLMCallOutcome where
  | ok (content mdl : List Char) (prompt_tokens completion_tokens total_tokens : Nat)
  | rateLimited
  | connectionFailed
  | apiFailed (msg : List Char)
  | unexpected

/-- `LLMService._call_llm`: on API success the counters are incremented and
a successful `LLMResponse` is built; each handled exception returns a failed
response with a fixed user-safe message and zero token counts, leaving the
counters untouched. -/
def call_llm (cfgModel : List Char) (st : LLMUsage) (out : LLMCallOutcome) :
    LLMUsage × LLMResponse :=
  match out with
  | .ok content mdl p c t =>
    ({ total_tokens_used := st.total_tokens_used + t
       total_requests := st.total_requests + 1 },
     { content := content, model := mdl, prompt_tokens := p,
       completion_tokens := c, total_tokens := t, success := true,
       error := none })
  | .rateLimited =>
    (st, { content := [], model := cfgModel, prompt_tokens := 0,
           completion_tokens := 0, total_tokens := 0, success := false,
           error := some "Rate limit exceeded. Please try again in a moment.".data })
  | .connectionFailed =>
    (st, { content := [], model := cfgModel, prompt_tokens := 0,
           completion_tokens := 0, total_tokens := 0, success := false,
           error := some "Unable to connect to AI service. Please check your connection.".data })
  | .apiFailed m =>
    (st, { content := [], model := cfgModel, prompt_tokens := 0,
           completion_tokens := 0, total_tokens := 0, success := false,
           error := some ("AI service error: ".data ++ m) })
  | .unexpected =>
    (st, { content := [], model := cfgModel, prompt_tokens := 0,
           completion_tokens := 0, total_tokens := 0, success := false,
           error := some "An unexpected error occurred. Please try again.".data })

-- ===========================================================================
-- chat_service.py: timing
-- ===========================================================================

/-- Python `int(x)`: truncation toward zero, on rationals. -/
def pyIntQ (q : ℚ) : Int := if 0 ≤ q then ⌊q⌋ else -⌊-q⌋

/-- `int((t2 - t1) * 1000)`: elapsed milliseconds between two clock
readings. -/
def msBetween (t1 t2 : ℚ) : Int := pyIntQ ((t2 - t1) * 1000)

theorem pyIntQ_of_nonneg {q : ℚ} (h : 0 ≤ q) : pyIntQ q = ⌊q⌋ := if_pos h

theorem pyIntQ_nonneg {q : ℚ} (h : 0 ≤ q) : 0 ≤ pyIntQ q := by
  rw [pyIntQ_of_nonneg h]
  exact Int.floor_nonneg.mpr h

theorem msBetween_nonneg {t1 t2 : ℚ} (h : t1 ≤ t2) : 0 ≤ msBetween t1 t2 :=
  pyIntQ_nonneg (by nlinarith)

theorem floor_add3_le (a b c : ℚ) : ⌊a⌋ + ⌊b⌋ + ⌊c⌋ ≤ ⌊a + b + c⌋ := by
  refine Int.le_floor.mpr ?_
  push_cast
  have ha := Int.floor_le a
  have hb := Int.floor_le b
  have hc := Int.floor_le c
  linarith

/-- Disjoint sub-intervals of a run: the sum of the truncated per-stage
millisecond counts is at most the truncated total. -/
theorem msBetween_sum3_le (t0 t1 t2 t3 t4 t5 t6 t7 : ℚ)
    (h01 : t0 ≤ t1) (h12 : t1 ≤ t2) (h23 : t2 ≤ t3) (h34 : t3 ≤ t4)
    (h45 : t4 ≤ t5) (h56 : t5 ≤ t6) (h67 : t6 ≤ t7) :
    msBetween t1 t2 + msBetween t3 t4 + msBetween t5 t6 ≤ msBetween t0 t7 := by
  rw [msBetween, msBetween, msBetween, msBetween,
    pyIntQ_of_nonneg (by nlinarith), pyIntQ_of_nonneg (by nlinarith),
    pyIntQ_of_nonneg (by nlinarith), pyIntQ_of_nonneg (by nlinarith)]
  calc ⌊(t2 - t1) * 1000⌋ + ⌊(t4 - t3) * 1000⌋ + ⌊(t6 - t5) * 1000⌋
      ≤ ⌊(t2 - t1) * 1000 + (t4 - t3) * 1000 + (t6 - t5) * 1000⌋ :=
        floor_add3_le _ _ _
    _ ≤ ⌊(t7 - t0) * 1000⌋ := Int.floor_le_floor (by nlinarith)

@[simp] theorem msBetween_self (t : ℚ) : msBetween t t = 0 := by
  simp [msBetween, pyIntQ]

-- ===========================================================================
-- chat_service.py: ChatStatus, ChatResponse, fallback formatter
-- ===========================================================================

/-- `ChatStatus` enum from `chat_service.py` (all seven members, including
the two that `ask` never produces). -/
inductive ChatStatus where
  | SUCCESS
  | SQL_GENERATION_FAILED
  | SQL_VALIDATION_FAILED
  | SQL_EXECUTION_FAILED
  | ANSWER_FORMATTING_FAILED
  | NO_RESULTS
  | ERROR
deriving DecidableEq

/-- `ChatResponse` dataclass (the `timestamp` metadata field reads the real
clock and is not modelled; no claim concerns it). -/
structure ChatResponse where
  status : ChatStatus
  answer : List Char
  sql : Option (List Char) := none
  data : Option (List Row) := none
  row_count : Nat := 0
  error : Option (List Char) := none
  sql_generation_time_ms : Int := 0
  sql_execution_time_ms : Int := 0
  answer_formatting_time_ms : Int := 0
  total_time_ms : Int := 0
  tokens_used : Nat := 0
  estimated_cost_usd : ℚ := 0

/-- String form of a converted cell.  Digit-level details of Python's
f-string rendering (comma grouping, two decimals for numbers above 1000)
are modelled by the canonical Lean rendering; no claim depends on the
rendered digits. -/
def cellToChars : PyVal → List Char
  | .vNone => "None".data
  | .vInt i => (toString i).data
  | .vFloat q =>
    (toString q.num).data ++
      (if q.den == 1 then [] else "/".data ++ (toString q.den).data)
  | .vStr s => s
  | .vBool b => if b then "True".data else "False".data
  | .vNum q => (toString q.num).data
  | .vOther s => s

/-- `row.get(col)` with the Python `None` default. -/
def rowGetVal (row : Row) (col : List Char) : PyVal :=
  match row.find? (fun p => p.1 == col) with
  | some p => p.2
  | none => .vNone

/-- `ChatService._simple_format`: the deterministic local fallback
formatter (first 10 rows as `col: value` pairs, with a trailing
`... and N more rows` notice). -/
def simpleFormat (_question : List Char) (results : List Row) : List Char :=
  match results with
  | [] => "No results found.".data
  | r0 :: _ =>
    let cols := r0.map (fun p => p.1)
    let header :=
      "Found ".data ++ (toString results.length).data ++ " results:\n".data
    let rowLines :=
      ((results.take 10).enumFrom 1).map fun ir =>
        (toString ir.1).data ++ ". ".data ++
          joinSep ", ".data
            (cols.map fun col =>
              col ++ ": ".data ++ cellToChars (rowGetVal ir.2 col))
    let tailLines :=
      if 10 < results.length then
        ["\n... and ".data ++ (toString (results.length - 10)).data ++
          " more rows".data]
      else []
    joinSep "\n".data (header :: (rowLines ++ tailLines))

-- ===========================================================================
-- chat_service.py: the ask orchestrator
-- ===========================================================================

/-- Constructor arguments of `ChatService.__init__` relevant to `ask`. -/
structure ChatCfg where
  validatorCfg : SQLValidatorCfg
  max_results : Nat

/-- The environment of one `ask` run: the successive `time.time()` readings
(indexed in call order), the outcome of the SQL-generation call, the
database, and the outcome of the answer-formatting call (as a function of
the SQL and the truncated results passed to it). -/
structure AskEnv where
  clock : Nat → ℚ
  gen : Option LLMResponse        -- `none` models a raised exception
  genExnMsg : List Char
  db : List Char → ExecOutcome
  fmt : List Char → List Char → List Row → Option LLMResponse
    -- (question, sql, truncated rows); `none` models a raised exception

/-- Python `a or b` for string options (`None` and `""` are falsy). -/
def pyOrStr (a : Option (List Char)) (b : List Char) : List Char :=
  match a with
  | some s => if s.isEmpty then b else s
  | none => b

/-- `ChatService.ask`: the orchestrator state machine.  Statistics-counter
updates and logging are omitted (no claim concerns them); the external
calls and the clock are supplied by `env`. -/
def ask (cfg : ChatCfg) (question : List Char) (env : AskEnv)
    (include_sql include_data : Bool) : ChatResponse :=
  match env.gen with
  | none =>
    { status := ChatStatus.SQL_GENERATION_FAILED
      answer := "Sorry, I encountered an error while processing your question. Please try again.".data
      error := some env.genExnMsg
      total_time_ms := msBetween (env.clock 0) (env.clock 2) }
  | some resp =>
    if resp.success = false then
      { status := ChatStatus.SQL_GENERATION_FAILED
        answer := "I couldn't understand your question. ".data ++
          pyOrStr resp.error "Please try rephrasing.".data
        error := resp.error
        sql_generation_time_ms := msBetween (env.clock 1) (env.clock 2)
        total_time_ms := msBetween (env.clock 0) (env.clock 3) }
    else
      if (validate cfg.validatorCfg resp.content).is_valid = false then
        { status := ChatStatus.SQL_VALIDATION_FAILED
          answer := "I generated a query but it didn't pass safety checks. Please try a different question.".data
          sql := if include_sql then some resp.content else none
          error := (validate cfg.validatorCfg resp.content).error_message
          sql_generation_time_ms := msBetween (env.clock 1) (env.clock 2)
          total_time_ms := msBetween (env.clock 0) (env.clock 3)
          tokens_used := resp.total_tokens
          estimated_cost_usd := cost_estimate resp }
      else
        -- `sql = validation_result.sanitized_sql or sql`
        let sql2 := pyOrStr (validate cfg.validatorCfg resp.content).sanitized_sql
          resp.content
        match execute_query cfg.max_results env.db sql2 with
        | .exn e =>
          { status := ChatStatus.SQL_EXECUTION_FAILED
            answer := "I couldn't retrieve the data. The query might be invalid or the data might not exist.".data
            sql := if include_sql then some sql2 else none
            error := some e
            sql_generation_time_ms := msBetween (env.clock 1) (env.clock 2)
            sql_execution_time_ms := msBetween (env.clock 3) (env.clock 4)
            total_time_ms := msBetween (env.clock 0) (env.clock 5)
            tokens_used := resp.total_tokens
            estimated_cost_usd := cost_estimate resp }
        | .ok results =>
          if results.length = 0 then
            { status := ChatStatus.NO_RESULTS
              answer := "I didn't find any data matching your query. This could mean:\n• No transactions exist for the specified criteria\n• The filters might be too restrictive\nTry broadening your search or changing the filters.".data
              sql := if include_sql then some sql2 else none
              data := if include_data then some [] else none
              row_count := 0
              sql_generation_time_ms := msBetween (env.clock 1) (env.clock 2)
              sql_execution_time_ms := msBetween (env.clock 3) (env.clock 4)
              total_time_ms := msBetween (env.clock 0) (env.clock 5)
              tokens_used := resp.total_tokens
              estimated_cost_usd := cost_estimate resp }
          else
            match env.fmt question sql2
                (if 20 < results.length then results.take 20 else results) with
            | some fresp =>
              if fresp.success = true then
                { status := ChatStatus.SUCCESS
                  answer := fresp.content
                  sql := if include_sql then some sql2 else none
                  data := if include_data then some results else none
                  row_count := results.length
                  sql_generation_time_ms := msBetween (env.clock 1) (env.clock 2)
                  sql_execution_time_ms := msBetween (env.clock 3) (env.clock 4)
                  answer_formatting_time_ms := msBetween (env.clock 5) (env.clock 6)
                  total_time_ms := msBetween (env.clock 0) (env.clock 7)
                  tokens_used := resp.total_tokens + fresp.total_tokens
                  estimated_cost_usd := cost_estimate resp + cost_estimate fresp }
              else
                { status := ChatStatus.SUCCESS
                  answer := simpleFormat question results
                  sql := if include_sql then some sql2 else none
                  data := if include_data then some results else none
                  row_count := results.length
                  sql_generation_time_ms := msBetween (env.clock 1) (env.clock 2)
                  sql_execution_time_ms := msBetween (env.clock 3) (env.clock 4)
                  answer_formatting_time_ms := msBetween (env.clock 5) (env.clock 6)
                  total_time_ms := msBetween (env.clock 0) (env.clock 7)
                  tokens_used := resp.total_tokens
                  estimated_cost_usd := cost_estimate resp }
            | none =>
              { status := ChatStatus.SUCCESS
                answer := simpleFormat question results
                sql := if include_sql then some sql2 else none
                data := if include_data then some results else none
                row_count := results.length
                sql_generation_time_ms := msBetween (env.clock 1) (env.clock 2)
                sql_execution_time_ms := msBetween (env.clock 3) (env.clock 4)
                answer_formatting_time_ms := msBetween (env.clock 5) (env.clock 6)
                total_time_ms := msBetween (env.clock 0) (env.clock 7)
                tokens_used := resp.total_tokens
                estimated_cost_usd := cost_estimate resp }

-- ===========================================================================
-- C3: orchestrator latency accounting and terminal statuses
-- ===========================================================================

/-- C3.  For every run of `ask` (over any environment whose successive clock
readings are monotone), the per-stage latencies sum to at most the total
latency, and the terminal status is exactly one of SUCCESS,
SQL_GENERATION_FAILED, SQL_VALIDATION_FAILED, SQL_EXECUTION_FAILED,
NO_RESULTS — never ANSWER_FORMATTING_FAILED, ERROR, or an uncaught
failure. -/
theorem C3_latency_and_status (cfg : ChatCfg) (question : List Char)
    (env : AskEnv) (include_sql include_data : Bool)
    (hm : ∀ i j : Nat, i ≤ j → env.clock i ≤ env.clock j) :
    ((ask cfg question env include_sql include_data).sql_generation_time_ms +
        (ask cfg question env include_sql include_data).sql_execution_time_ms +
        (ask cfg question env include_sql include_data).answer_formatting_time_ms ≤
      (ask cfg question env include_sql include_data).total_time_ms) ∧
    ((ask cfg question env include_sql include_data).status = ChatStatus.SUCCESS ∨
      (ask cfg question env include_sql include_data).status = ChatStatus.SQL_GENERATION_FAILED ∨
      (ask cfg question env include_sql include_data).status = ChatStatus.SQL_VALIDATION_FAILED ∨
      (ask cfg question env include_sql include_data).status = ChatStatus.SQL_EXECUTION_FAILED ∨
      (ask cfg question env include_sql include_data).status = ChatStatus.NO_RESULTS) := by
  have hone : ∀ i j k l : Nat, i ≤ j → j ≤ k → k ≤ l →
      msBetween (env.clock j) (env.clock k) + 0 + 0 ≤
        msBetween (env.clock i) (env.clock l) := by
    intro i j k l hij hjk hkl
    have h := msBetween_sum3_le (env.clock i) (env.clock j) (env.clock k)
      (env.clock k) (env.clock k) (env.clock k) (env.clock k) (env.clock l)
      (hm i j hij) (hm j k hjk) le_rfl le_rfl le_rfl le_rfl (hm k l hkl)
    simpa using h
  have htwo : msBetween (env.clock 1) (env.clock 2) +
        msBetween (env.clock 3) (env.clock 4) + 0 ≤
      msBetween (env.clock 0) (env.clock 5) := by
    have h := msBetween_sum3_le (env.clock 0) (env.clock 1) (env.clock 2)
      (env.clock 3) (env.clock 4) (env.clock 4) (env.clock 4) (env.clock 5)
      (hm 0 1 (by omega)) (hm 1 2 (by omega)) (hm 2 3 (by omega))
      (hm 3 4 (by omega)) le_rfl le_rfl (hm 4 5 (by omega))
    simpa using h
  have hthree : msBetween (env.clock 1) (env.clock 2) +
        msBetween (env.clock 3) (env.clock 4) +
        msBetween (env.clock 5) (env.clock 6) ≤
      msBetween (env.clock 0) (env.clock 7) :=
    msBetween_sum3_le (env.clock 0) (env.clock 1) (env.clock 2) (env.clock 3)
      (env.clock 4) (env.clock 5) (env.clock 6) (env.clock 7)
      (hm 0 1 (by omega)) (hm 1 2 (by omega)) (hm 2 3 (by omega))
      (hm 3 4 (by omega)) (hm 4 5 (by omega)) (hm 5 6 (by omega))
      (hm 6 7 (by omega))
  cases hg : env.gen with
  | none =>
    refine ⟨?_, ?_⟩
    · simp only [ask, hg]
      simpa using msBetween_nonneg (hm 0 2 (by omega))
    · simp [ask, hg]
  | some resp =>
    by_cases hs : resp.success = false
    · refine ⟨?_, ?_⟩
      · simp only [ask, hg, if_pos hs]
        exact hone 0 1 2 3 (by omega) (by omega) (by omega)
      · simp [ask, hg, hs]
    · by_cases hv : (validate cfg.validatorCfg resp.content).is_valid = false
      · refine ⟨?_, ?_⟩
        · simp only [ask, hg, if_neg hs, if_pos hv]
          exact hone 0 1 2 3 (by omega) (by omega) (by omega)
        · simp [ask, hg, hs, hv]
      · cases hx : execute_query cfg.max_results env.db
            (pyOrStr (validate cfg.validatorCfg resp.content).sanitized_sql
              resp.content) with
        | exn e =>
          refine ⟨?_, ?_⟩
          · simp only [ask, hg, if_neg hs, if_neg hv, hx]
            exact htwo
          · simp [ask, hg, hs, hv, hx]
        | ok results =>
          by_cases hr : results.length = 0
          · refine ⟨?_, ?_⟩
            · simp only [ask, hg, if_neg hs, if_neg hv, hx, if_pos hr]
              exact htwo
            · simp [ask, hg, hs, hv, hx, hr]
          · cases hf : env.fmt question
                (pyOrStr (validate cfg.validatorCfg resp.content).sanitized_sql
                  resp.content)
                (if 20 < results.length then results.take 20 else results) with
            | none =>
              refine ⟨?_, ?_⟩
              · simp only [ask, hg, if_neg hs, if_neg hv, hx, if_neg hr, hf]
                exact hthree
              · simp [ask, hg, hs, hv, hx, hr, hf]
            | some fresp =>
              by_cases hfs : fresp.success = true
              · refine ⟨?_, ?_⟩
                · simp only [ask, hg, if_neg hs, if_neg hv, hx, if_neg hr, hf,
                    if_pos hfs]
                  exact hthree
                · simp [ask, hg, hs, hv, hx, hr, hf, hfs]
              · refine ⟨?_, ?_⟩
                · simp only [ask, hg, if_neg hs, if_neg hv, hx, if_neg hr, hf,
                    if_neg hfs]
                  exact hthree
                · simp [ask, hg, hs, hv, hx, hr, hf, hfs]

/-- A degenerate environment for the C3 witness: constant clock, generation
raises. -/
def witnessEnv : AskEnv :=
  { clock := fun _ => 0
    gen := none
    genExnMsg := "boom".data
    db := fun _ => ExecOutcome.ok []
    fmt := fun _ _ _ => none }

/-- Witness for C3 on a concrete environment. -/
theorem C3_latency_and_status_witness :
    ((ask { validatorCfg := defaultCfg, max_results := 100 } "hi".data
        witnessEnv true true).sql_generation_time_ms +
        (ask { validatorCfg := defaultCfg, max_results := 100 } "hi".data
          witnessEnv true true).sql_execution_time_ms +
        (ask { validatorCfg := defaultCfg, max_results := 100 } "hi".data
          witnessEnv true true).answer_formatting_time_ms ≤
      (ask { validatorCfg := defaultCfg, max_results := 100 } "hi".data
        witnessEnv true true).total_time_ms) ∧
    ((ask { validatorCfg := defaultCfg, max_results := 100 } "hi".data
        witnessEnv true true).status = ChatStatus.SUCCESS ∨
      (ask { validatorCfg := defaultCfg, max_results := 100 } "hi".data
        witnessEnv true true).status = ChatStatus.SQL_GENERATION_FAILED ∨
      (ask { validatorCfg := defaultCfg, max_results := 100 } "hi".data
        witnessEnv true true).status = ChatStatus.SQL_VALIDATION_FAILED ∨
      (ask { validatorCfg := defaultCfg, max_results := 100 } "hi".data
        witnessEnv true true).status = ChatStatus.SQL_EXECUTION_FAILED ∨
      (ask { validatorCfg := defaultCfg, max_results := 100 } "hi".data
        witnessEnv true true).status = ChatStatus.NO_RESULTS) :=
  C3_latency_and_status { validatorCfg := defaultCfg, max_results := 100 }
    "hi".data witnessEnv true true (fun _ _ _ => le_refl 0)

-- ===========================================================================
-- C6: row-cap injection in _execute_query
-- ===========================================================================

/-- C6.  For every query whose upper-cased text contains no `LIMIT` token
(the code's test for "no explicit row limit"), `_execute_query` appends
`LIMIT max_results` to the semicolon-stripped query before dispatch; and,
provided the backend honours a trailing `LIMIT n` clause, the marshalled
result has at most `max_results` rows. -/
theorem C6_row_cap (max_results : Nat) (db : List Char → ExecOutcome)
    (sql : List Char)
    (hnl : containsSub (upperChars sql) "LIMIT".data = false)
    (hdb : ∀ q rows n, db q = ExecOutcome.ok rows → hasTrailingLimit q n →
      rows.length ≤ n) :
    dispatchSql max_results sql =
      rstripChar ';' sql ++ " LIMIT ".data ++ (toString max_results).data ∧
    ∀ rows, execute_query max_results db sql = ExecOutcome.ok rows →
      rows.length ≤ max_results := by
  have hdisp : dispatchSql max_results sql =
      rstripChar ';' sql ++ " LIMIT ".data ++ (toString max_results).data := by
    unfold dispatchSql
    rw [if_neg (by simp [hnl])]
  refine ⟨hdisp, ?_⟩
  intro rows hok
  unfold execute_query at hok
  cases hq : db (dispatchSql max_results sql) with
  | exn e => rw [hq] at hok; cases hok
  | ok raws =>
    rw [hq] at hok
    cases hok
    have hlim : hasTrailingLimit (dispatchSql max_results sql) max_results :=
      ⟨rstripChar ';' sql, by rw [hdisp, List.append_assoc]⟩
    have := hdb _ raws max_results hq hlim
    simpa using this

/-- Witness for C6: an empty-result backend trivially honours LIMIT. -/
theorem C6_row_cap_witness :
    (dispatchSql 100 "SELECT * FROM sales_analytics".data =
      rstripChar ';' "SELECT * FROM sales_analytics".data ++ " LIMIT ".data ++
        (toString 100).data) ∧
    ∀ rows,
      execute_query 100 (fun _ => ExecOutcome.ok [])
        "SELECT * FROM sales_analytics".data = ExecOutcome.ok rows →
      rows.length ≤ 100 :=
  C6_row_cap 100 (fun _ => ExecOutcome.ok [])
    "SELECT * FROM sales_analytics".data (by decide)
    (fun q rows n hok _ => by
      cases hok
      simp)

-- ===========================================================================
-- C9: usage counters in _call_llm
-- ===========================================================================

/-- C9 counterexample.  A failed call (rate limited) leaves both counters
unchanged — `_call_llm` increments `total_tokens_used` and `total_requests`
only on the success path, refuting "incremented on both success and
failure". -/
theorem C9_counterexample :
    (call_llm "gpt-4o-mini".data
        { total_tokens_used := 0, total_requests := 0 }
        LLMCallOutcome.rateLimited).2.success = false ∧
    (call_llm "gpt-4o-mini".data
        { total_tokens_used := 0, total_requests := 0 }
        LLMCallOutcome.rateLimited).1 =
      { total_tokens_used := 0, total_requests := 0 } := by
  exact ⟨rfl, rfl⟩

/-- C9 (amended).  `_call_llm` increments the process-wide counters exactly
on success: a successful call adds the reported token usage to
`total_tokens_used` and one to `total_requests`, while every handled
failure (rate limit, connection, API, unexpected) leaves both counters
unchanged. -/
theorem C9_counters_on_success_only (cfgModel : List Char) (st : LLMUsage)
    (out : LLMCallOutcome) :
    ((call_llm cfgModel st out).2.success = true →
      (call_llm cfgModel st out).1.total_requests = st.total_requests + 1 ∧
      (call_llm cfgModel st out).1.total_tokens_used =
        st.total_tokens_used + (call_llm cfgModel st out).2.total_tokens) ∧
    ((call_llm cfgModel st out).2.success = false →
      (call_llm cfgModel st out).1 = st) := by
  cases out <;> simp [call_llm]

/-- Witness for the amended C9 on a concrete successful and a concrete
failed call. -/
theorem C9_counters_on_success_only_witness :
    ((call_llm "gpt-4o-mini".data
        { total_tokens_used := 7, total_requests := 3 }
        (LLMCallOutcome.ok "SELECT 1".data "gpt-4o-mini".data 10 5 15)).1.total_requests
      = 3 + 1) ∧
    ((call_llm "gpt-4o-mini".data
        { total_tokens_used := 7, total_requests := 3 }
        LLMCallOutcome.connectionFailed).1 =
      { total_tokens_used := 7, total_requests := 3 }) :=
  ⟨((C9_counters_on_success_only "gpt-4o-mini".data
      { total_tokens_used := 7, total_requests := 3 }
      (LLMCallOutcome.ok "SELECT 1".data "gpt-4o-mini".data 10 5 15)).1 rfl).1,
    (C9_counters_on_success_only "gpt-4o-mini".data
      { total_tokens_used := 7, total_requests := 3 }
      LLMCallOutcome.connectionFailed).2 rfl⟩

-- ===========================================================================
-- schema_loader.py: vocabulary document and lookup caches
-- ===========================================================================

/-- A column entry of the vocabulary document (name, aliases, and the
optional aggregation used by `get_measure_sql`; the remaining fields play no
role in the modelled lookups). -/
structure ColumnDef where
  name : List Char
  aliases : List (List Char)
  aggregation : Option (List Char) := none
deriving DecidableEq

/-- An entry of `business_mappings.product_categories`. -/
structure ProductCatDef where
  key : List Char
  business_term : List Char
  sql_expression : List Char
  aliases : List (List Char)
deriving DecidableEq

/-- An entry of `derived_measures`. -/
structure DerivedDef where
  name : List Char
  expression : List Char
  aliases : List (List Char)
deriving DecidableEq

/-- An entry of `business_term_mappings.indian_states`. -/
structure StateDef where
  key : List Char
  value : List Char
  aliases : List (List Char)
deriving DecidableEq

/-- The part of the vocabulary document consumed by the modelled caches and
lookups. -/
structure SchemaDoc where
  columns : List ColumnDef
  states : List StateDef
  product_categories : List ProductCatDef := []
  derived_measures : List DerivedDef := []
  measures : List (List Char) := []
deriving DecidableEq

/-- A Python dict as an insertion-ordered association list. -/
def Dict : Type := List ((List Char) × (List Char))

/-- Python dict assignment `d[k] = v`: update in place if the key exists,
else append. -/
def dictInsert (k v : List Char) : Dict → Dict
  | [] => [(k, v)]
  | p :: t => if p.1 == k then (p.1, v) :: t else p :: dictInsert k v t

/-- Python `d.get(k)`. -/
def dictGet (k : List Char) (d : Dict) : Option (List Char) :=
  (d.find? (fun p => p.1 == k)).map (fun p => p.2)

/-- The alias-to-column assignments performed by `_build_caches`, flattened
in loop order: for each column, each alias (lower-cased) then the column
name itself. -/
def aliasPairs : List ColumnDef → List ((List Char) × (List Char))
  | [] => []
  | c :: cs =>
    (c.aliases.map fun a => (lowerChars a, c.name)) ++
      ((lowerChars c.name, c.name) :: aliasPairs cs)

/-- `_build_caches`: the `_alias_to_column` dict. -/
def buildAliasCache (doc : SchemaDoc) : Dict :=
  (aliasPairs doc.columns).foldl (fun d p => dictInsert p.1 p.2 d) []

/-- `SemanticSchema.get_column_name`: case-insensitive lookup of a column
name or alias. -/
def get_column_name (doc : SchemaDoc) (alias_or_name : List Char) :
    Option (List Char) :=
  dictGet (lowerChars alias_or_name) (buildAliasCache doc)

/-- Python `key.replace("_", " ")`. -/
def replaceUnderscore (s : List Char) : List Char :=
  s.map fun c => if c == '_' then ' ' else c

/-- The state-alias assignments of `_build_caches`, flattened in loop order
(entries whose key starts with `_` are skipped, as in the source). -/
def statePairs : List StateDef → List ((List Char) × (List Char))
  | [] => []
  | st :: rest =>
    if List.isPrefixOf "_".data st.key then statePairs rest
    else
      (lowerChars (replaceUnderscore st.key), st.value) ::
        (lowerChars st.value, st.value) ::
        ((st.aliases.map fun a => (lowerChars a, st.value)) ++ statePairs rest)

/-- `_build_caches`: the `_state_alias_to_value` dict. -/
def stateCache (doc : SchemaDoc) : Dict :=
  (statePairs doc.states).foldl (fun d p => dictInsert p.1 p.2 d) []

/-- Python `str.title()` (ASCII): upper-case a letter following a non-letter,
lower-case a letter following a letter. -/
def titleGo : Bool → List Char → List Char
  | _, [] => []
  | prevAlpha, c :: cs =>
    (if prevAlpha then c.toLower else c.toUpper) :: titleGo c.isAlpha cs

/-- Python `str.title()`. -/
def titleChars (s : List Char) : List Char := titleGo false s

/-- `SemanticSchema.get_state_value`: case-insensitive lookup with a
`term.title()` default when the term is not registered. -/
def get_state_value (doc : SchemaDoc) (state_term : List Char) : List Char :=
  (dictGet (stripChars (lowerChars state_term)) (stateCache doc)).getD
    (titleChars state_term)

/-- The product-category alias assignments of `_build_caches`, flattened in
loop order (entries whose key starts with `_` are skipped; the business
term is registered first, then the aliases, all lower-cased, each mapping
to the entry's key). -/
def productPairs : List ProductCatDef → List ((List Char) × (List Char))
  | [] => []
  | pc :: rest =>
    if List.isPrefixOf "_".data pc.key then productPairs rest
    else
      (lowerChars pc.business_term, pc.key) ::
        ((pc.aliases.map fun a => (lowerChars a, pc.key)) ++ productPairs rest)

/-- `_build_caches`: the `_product_alias_to_key` dict. -/
def productKeyCache (doc : SchemaDoc) : Dict :=
  (productPairs doc.product_categories).foldl
    (fun acc p => dictInsert p.1 p.2 acc) []

/-- `SemanticSchema.get_product_category_sql`: resolve the lower-cased,
stripped term to an entry key (Python `if key:` treats an empty key like a
miss), then return that entry's `sql_expression`. -/
def get_product_category_sql (doc : SchemaDoc) (category_term : List Char) :
    Option (List Char) :=
  match dictGet (stripChars (lowerChars category_term)) (productKeyCache doc) with
  | some key =>
    if key.isEmpty then none
    else
      match doc.product_categories.find? (fun pc => pc.key == key) with
      | some pc => some pc.sql_expression
      | none => none
  | none => none

/-- The derived-measure alias assignments of `_build_caches`, flattened in
loop order (the name first, then the aliases, all lower-cased, each mapping
to the expression). -/
def derivedPairs : List DerivedDef → List ((List Char) × (List Char))
  | [] => []
  | dm :: rest =>
    (lowerChars dm.name, dm.expression) ::
      ((dm.aliases.map fun a => (lowerChars a, dm.expression)) ++
        derivedPairs rest)

/-- `_build_caches`: the `_derived_alias_to_expression` dict. -/
def derivedCache (doc : SchemaDoc) : Dict :=
  (derivedPairs doc.derived_measures).foldl
    (fun acc p => dictInsert p.1 p.2 acc) []

/-- `self.columns.get(col_name, {}).get("aggregation", "sum")`. -/
def aggregationOf (doc : SchemaDoc) (col_name : List Char) : List Char :=
  match doc.columns.find? (fun c => c.name == col_name) with
  | some c => c.aggregation.getD "sum".data
  | none => "sum".data

/-- `SemanticSchema.get_measure_sql`: check the derived-measure cache first
(on the lower-cased name), then fall back to a regular measure resolved via
`get_column_name` (Python `if col_name and col_name in self.measures`),
else `None`. -/
def get_measure_sql (doc : SchemaDoc) (measure_name : List Char) :
    Option (List Char) :=
  match dictGet (lowerChars measure_name) (derivedCache doc) with
  | some expr => some expr
  | none =>
    match get_column_name doc measure_name with
    | some col_name =>
      if !col_name.isEmpty && doc.measures.contains col_name then
        some (upperChars (aggregationOf doc col_name) ++
          ("(".data ++ col_name ++ ")".data))
      else none
    | none => none

-- ===========================================================================
-- Dict lemmas: insertion-order semantics
-- ===========================================================================

theorem dictGet_insert (k v q : List Char) (d : Dict) :
    dictGet q (dictInsert k v d) =
      if k == q then some v else dictGet q d := by
  induction d with
  | nil =>
    by_cases h : k = q
    · simp [dictInsert, dictGet, List.find?, beq_iff_eq.mpr h]
    · simp [dictInsert, dictGet, List.find?, beq_eq_false_iff_ne.mpr h]
  | cons p t ih =>
    by_cases hpk : p.1 = k
    · have hbk : (p.1 == k) = true := beq_iff_eq.mpr hpk
      by_cases hq : k = q
      · have hbq : (p.1 == q) = true := beq_iff_eq.mpr (hpk.trans hq)
        have hkq : (k == q) = true := beq_iff_eq.mpr hq
        simp [dictInsert, dictGet, List.find?, hbk, hbq, hkq]
      · have hbq : (p.1 == q) = false :=
          beq_eq_false_iff_ne.mpr (by rw [hpk]; exact hq)
        have hkq : (k == q) = false := beq_eq_false_iff_ne.mpr hq
        simp [dictInsert, dictGet, List.find?, hbk, hbq, hkq]
    · have hbk : (p.1 == k) = false := beq_eq_false_iff_ne.mpr hpk
      by_cases hpq : p.1 = q
      · have hkq : (k == q) = false :=
          beq_eq_false_iff_ne.mpr (fun h => hpk (by rw [hpq, h]))
        have hbq : (p.1 == q) = true := beq_iff_eq.mpr hpq
        simp [dictInsert, dictGet, List.find?, hbk, hbq, hkq]
      · have hbq : (p.1 == q) = false := beq_eq_false_iff_ne.mpr hpq
        have step2 : dictGet q (p :: t) = dictGet q t := by
          simp [dictGet, List.find?, hbq]
        calc dictGet q (dictInsert k v (p :: t))
            = dictGet q (p :: dictInsert k v t) := by simp [dictInsert, hbk]
          _ = dictGet q (dictInsert k v t) := by simp [dictGet, List.find?, hbq]
          _ = if k == q then some v else dictGet q t := ih
          _ = if k == q then some v else dictGet q (p :: t) := by rw [step2]

theorem dictGet_foldl (ps : List ((List Char) × (List Char))) (d : Dict)
    (q : List Char) :
    dictGet q (ps.foldl (fun acc p => dictInsert p.1 p.2 acc) d) =
      match ps.reverse.find? (fun r => r.1 == q) with
      | some r => some r.2
      | none => dictGet q d := by
  induction ps generalizing d with
  | nil => simp
  | cons p t ih =>
    rw [List.foldl_cons, ih (dictInsert p.1 p.2 d), List.reverse_cons,
      List.find?_append]
    cases h : t.reverse.find? (fun r => r.1 == q) with
    | some r => simp [h]
    | none =>
      cases hb : (p.1 == q) <;>
        simp [h, List.find?, hb, dictGet_insert, Option.orElse]

theorem mem_aliasPairs_iff (cs : List ColumnDef) (k : List Char) :
    (∃ p ∈ aliasPairs cs, p.1 = k) ↔
      ∃ c ∈ cs, lowerChars c.name = k ∨ ∃ a ∈ c.aliases, lowerChars a = k := by
  induction cs with
  | nil => simp [aliasPairs]
  | cons c rest ih =>
    simp only [aliasPairs, List.mem_append, List.mem_cons, List.mem_map]
    constructor
    · rintro ⟨p, hp, hk⟩
      rcases hp with ⟨a, ha, rfl⟩ | hp
      · exact ⟨c, Or.inl rfl, Or.inr ⟨a, ha, hk⟩⟩
      · rcases hp with rfl | hp
        · exact ⟨c, Or.inl rfl, Or.inl hk⟩
        · rcases ih.mp ⟨p, hp, hk⟩ with ⟨c2, hc2, hx⟩
          exact ⟨c2, Or.inr hc2, hx⟩
    · rintro ⟨c2, hc2, hx⟩
      rcases hc2 with rfl | hc2
      · rcases hx with hx | ⟨a, ha, hx⟩
        · exact ⟨(lowerChars c2.name, c2.name), Or.inr (Or.inl rfl), hx⟩
        · exact ⟨(lowerChars a, c2.name), Or.inl ⟨a, ha, rfl⟩, hx⟩
      · rcases ih.mpr ⟨c2, hc2, hx⟩ with ⟨p, hp, hk⟩
        exact ⟨p, Or.inr (Or.inr hp), hk⟩

theorem get_column_name_isSome_iff (doc : SchemaDoc) (t : List Char) :
    (get_column_name doc t).isSome = true ↔
      ∃ c ∈ doc.columns, lowerChars c.name = lowerChars t ∨
        ∃ a ∈ c.aliases, lowerChars a = lowerChars t := by
  rw [← mem_aliasPairs_iff doc.columns (lowerChars t)]
  unfold get_column_name buildAliasCache
  rw [dictGet_foldl]
  cases h : (aliasPairs doc.columns).reverse.find?
      (fun r => r.1 == lowerChars t) with
  | some r =>
    have hpr : (r.1 == lowerChars t) = true := by
      simpa using List.find?_some h
    simp only [Option.isSome_some, true_iff]
    exact ⟨r, List.mem_reverse.mp (List.mem_of_find?_eq_some h),
      beq_iff_eq.mp hpr⟩
  | none =>
    simp only [show dictGet (lowerChars t) ([] : Dict) = none from rfl,
      Option.isSome_none]
    constructor
    · intro hfalse
      exact absurd hfalse (by simp)
    · rintro ⟨p, hp, hk⟩
      exact absurd (beq_iff_eq.mpr hk)
        (by simpa using List.find?_eq_none.mp h p (List.mem_reverse.mpr hp))

theorem dictGet_fold_isSome_iff (ps : List ((List Char) × (List Char)))
    (k : List Char) :
    (dictGet k (ps.foldl (fun acc p => dictInsert p.1 p.2 acc)
        ([] : Dict))).isSome = true ↔
      ∃ p ∈ ps, p.1 = k := by
  rw [dictGet_foldl]
  cases h : ps.reverse.find? (fun r => r.1 == k) with
  | some r =>
    have hpr : (r.1 == k) = true := by
      simpa using List.find?_some h
    simp only [Option.isSome_some, true_iff]
    exact ⟨r, List.mem_reverse.mp (List.mem_of_find?_eq_some h),
      beq_iff_eq.mp hpr⟩
  | none =>
    simp only [show dictGet k ([] : Dict) = none from rfl, Option.isSome_none]
    constructor
    · intro hfalse
      exact absurd hfalse (by simp)
    · rintro ⟨p, hp, hk⟩
      exact absurd (beq_iff_eq.mpr hk)
        (by simpa using List.find?_eq_none.mp h p (List.mem_reverse.mpr hp))

theorem dictGet_fold_eq_some (ps : List ((List Char) × (List Char)))
    (k v : List Char)
    (h : dictGet k (ps.foldl (fun acc p => dictInsert p.1 p.2 acc)
        ([] : Dict)) = some v) :
    ∃ p ∈ ps, p.1 = k ∧ p.2 = v := by
  rw [dictGet_foldl] at h
  cases hf : ps.reverse.find? (fun r => r.1 == k) with
  | none =>
    rw [hf] at h
    exact absurd h (by simp [dictGet, List.find?])
  | some r =>
    rw [hf] at h
    have hpr : (r.1 == k) = true := by
      simpa using List.find?_some hf
    exact ⟨r, List.mem_reverse.mp (List.mem_of_find?_eq_some hf),
      beq_iff_eq.mp hpr, Option.some.inj h⟩

theorem mem_productPairs_iff (pcs : List ProductCatDef) (k : List Char) :
    (∃ p ∈ productPairs pcs, p.1 = k) ↔
      ∃ pc ∈ pcs, List.isPrefixOf "_".data pc.key = false ∧
        (lowerChars pc.business_term = k ∨
          ∃ a ∈ pc.aliases, lowerChars a = k) := by
  induction pcs with
  | nil => simp [productPairs]
  | cons pc rest ih =>
    by_cases hu : List.isPrefixOf "_".data pc.key = true
    · rw [show productPairs (pc :: rest) = productPairs rest from by
        simp [productPairs, hu]]
      rw [ih]
      constructor
      · rintro ⟨pc2, hpc2, hx⟩
        exact ⟨pc2, List.mem_cons_of_mem pc hpc2, hx⟩
      · rintro ⟨pc2, hpc2, hx⟩
        rcases List.mem_cons.mp hpc2 with rfl | hpc2
        · exact absurd hx.1 (by simp [hu])
        · exact ⟨pc2, hpc2, hx⟩
    · have hu' : List.isPrefixOf "_".data pc.key = false :=
        Bool.eq_false_iff.mpr hu
      rw [show productPairs (pc :: rest) =
          (lowerChars pc.business_term, pc.key) ::
            ((pc.aliases.map fun a => (lowerChars a, pc.key)) ++
              productPairs rest) from by
        simp [productPairs, hu]]
      simp only [List.mem_cons, List.mem_append, List.mem_map]
      constructor
      · rintro ⟨p, hp, hk⟩
        rcases hp with rfl | ⟨a, ha, rfl⟩ | hp
        · exact ⟨pc, Or.inl rfl, hu', Or.inl hk⟩
        · exact ⟨pc, Or.inl rfl, hu', Or.inr ⟨a, ha, hk⟩⟩
        · rcases ih.mp ⟨p, hp, hk⟩ with ⟨pc2, hpc2, hx⟩
          exact ⟨pc2, Or.inr hpc2, hx⟩
      · rintro ⟨pc2, hpc2, hx⟩
        rcases hpc2 with rfl | hpc2
        · rcases hx.2 with hb | ⟨a, ha, hb⟩
          · exact ⟨(lowerChars pc2.business_term, pc2.key), Or.inl rfl, hb⟩
          · exact ⟨(lowerChars a, pc2.key), Or.inr (Or.inl ⟨a, ha, rfl⟩), hb⟩
        · rcases ih.mpr ⟨pc2, hpc2, hx⟩ with ⟨p, hp, hk⟩
          exact ⟨p, Or.inr (Or.inr hp), hk⟩

theorem productPairs_val_mem (pcs : List ProductCatDef)
    (p : (List Char) × (List Char)) (hp : p ∈ productPairs pcs) :
    ∃ pc ∈ pcs, p.2 = pc.key := by
  induction pcs with
  | nil => simp [productPairs] at hp
  | cons pc rest ih =>
    by_cases hu : List.isPrefixOf "_".data pc.key = true
    · rw [show productPairs (pc :: rest) = productPairs rest from by
        simp [productPairs, hu]] at hp
      rcases ih hp with ⟨pc2, hpc2, hv⟩
      exact ⟨pc2, List.mem_cons_of_mem pc hpc2, hv⟩
    · rw [show productPairs (pc :: rest) =
          (lowerChars pc.business_term, pc.key) ::
            ((pc.aliases.map fun a => (lowerChars a, pc.key)) ++
              productPairs rest) from by
        simp [productPairs, hu]] at hp
      rcases List.mem_cons.mp hp with rfl | hp
      · exact ⟨pc, List.mem_cons_self pc rest, rfl⟩
      · rcases List.mem_append.mp hp with hp | hp
        · rcases List.mem_map.mp hp with ⟨a, _, rfl⟩
          exact ⟨pc, List.mem_cons_self pc rest, rfl⟩
        · rcases ih hp with ⟨pc2, hpc2, hv⟩
          exact ⟨pc2, List.mem_cons_of_mem pc hpc2, hv⟩

theorem mem_derivedPairs_iff (dms : List DerivedDef) (k : List Char) :
    (∃ p ∈ derivedPairs dms, p.1 = k) ↔
      ∃ dm ∈ dms, lowerChars dm.name = k ∨
        ∃ a ∈ dm.aliases, lowerChars a = k := by
  induction dms with
  | nil => simp [derivedPairs]
  | cons dm rest ih =>
    simp only [derivedPairs, List.mem_cons, List.mem_append, List.mem_map]
    constructor
    · rintro ⟨p, hp, hk⟩
      rcases hp with rfl | ⟨a, ha, rfl⟩ | hp
      · exact ⟨dm, Or.inl rfl, Or.inl hk⟩
      · exact ⟨dm, Or.inl rfl, Or.inr ⟨a, ha, hk⟩⟩
      · rcases ih.mp ⟨p, hp, hk⟩ with ⟨dm2, hdm2, hx⟩
        exact ⟨dm2, Or.inr hdm2, hx⟩
    · rintro ⟨dm2, hdm2, hx⟩
      rcases hdm2 with rfl | hdm2
      · rcases hx with hb | ⟨a, ha, hb⟩
        · exact ⟨(lowerChars dm2.name, dm2.expression), Or.inl rfl, hb⟩
        · exact ⟨(lowerChars a, dm2.expression),
            Or.inr (Or.inl ⟨a, ha, rfl⟩), hb⟩
      · rcases ih.mpr ⟨dm2, hdm2, hx⟩ with ⟨p, hp, hk⟩
        exact ⟨p, Or.inr (Or.inr hp), hk⟩

theorem get_product_category_sql_isSome_iff (doc : SchemaDoc) (t : List Char)
    (hkeys : ∀ pc ∈ doc.product_categories, pc.key.isEmpty = false) :
    (get_product_category_sql doc t).isSome = true ↔
      ∃ pc ∈ doc.product_categories,
        List.isPrefixOf "_".data pc.key = false ∧
        (lowerChars pc.business_term = stripChars (lowerChars t) ∨
          ∃ a ∈ pc.aliases, lowerChars a = stripChars (lowerChars t)) := by
  rw [← mem_productPairs_iff]
  unfold get_product_category_sql productKeyCache
  cases hd : dictGet (stripChars (lowerChars t))
      ((productPairs doc.product_categories).foldl
        (fun acc p => dictInsert p.1 p.2 acc) []) with
  | none =>
    constructor
    · intro hf
      exact absurd hf (by simp)
    · rintro ⟨p, hp, hk⟩
      have hs := (dictGet_fold_isSome_iff (productPairs doc.product_categories)
        (stripChars (lowerChars t))).mpr ⟨p, hp, hk⟩
      rw [hd] at hs
      exact absurd hs (by simp)
  | some key =>
    rcases dictGet_fold_eq_some _ _ _ hd with ⟨p, hp, hpk, hpv⟩
    rcases productPairs_val_mem doc.product_categories p hp with ⟨pc0, hpc0, hval⟩
    have hkey0 : pc0.key = key := hval.symm.trans hpv
    have hne : key.isEmpty = false := by
      rw [← hkey0]
      exact hkeys pc0 hpc0
    dsimp only
    rw [if_neg (by simp [hne])]
    cases hf : doc.product_categories.find? (fun pc => pc.key == key) with
    | none =>
      exfalso
      exact (List.find?_eq_none.mp hf pc0 hpc0) (beq_iff_eq.mpr hkey0)
    | some pc1 =>
      simp only [Option.isSome_some, true_iff]
      exact ⟨p, hp, hpk⟩

theorem get_measure_sql_isSome_iff (doc : SchemaDoc) (t : List Char) :
    (get_measure_sql doc t).isSome = true ↔
      ((∃ dm ∈ doc.derived_measures, lowerChars dm.name = lowerChars t ∨
          ∃ a ∈ dm.aliases, lowerChars a = lowerChars t) ∨
        (∃ n, get_column_name doc t = some n ∧ n.isEmpty = false ∧
          n ∈ doc.measures)) := by
  have hderived : (dictGet (lowerChars t) (derivedCache doc)).isSome = true ↔
      ∃ dm ∈ doc.derived_measures, lowerChars dm.name = lowerChars t ∨
        ∃ a ∈ dm.aliases, lowerChars a = lowerChars t := by
    unfold derivedCache
    rw [dictGet_fold_isSome_iff, mem_derivedPairs_iff]
  unfold get_measure_sql
  cases hd : dictGet (lowerChars t) (derivedCache doc) with
  | some expr =>
    dsimp only
    simp only [Option.isSome_some, true_iff]
    exact Or.inl (hderived.mp (by rw [hd]; rfl))
  | none =>
    have hnd : ¬ ∃ dm ∈ doc.derived_measures,
        lowerChars dm.name = lowerChars t ∨
          ∃ a ∈ dm.aliases, lowerChars a = lowerChars t := by
      intro hx
      have hs := hderived.mpr hx
      rw [hd] at hs
      exact absurd hs (by simp)
    cases hc : get_column_name doc t with
    | none =>
      constructor
      · intro hf
        exact absurd hf (by simp)
      · rintro (hx | ⟨n, hn, _, _⟩)
        · exact absurd hx hnd
        · simp at hn
    | some n =>
      by_cases hcond : (!n.isEmpty && doc.measures.contains n) = true
      · dsimp only
        rw [if_pos hcond]
        simp only [Option.isSome_some, true_iff]
        simp only [Bool.and_eq_true, Bool.not_eq_true'] at hcond
        refine Or.inr ⟨n, rfl, hcond.1, ?_⟩
        simpa using hcond.2
      · dsimp only
        rw [if_neg hcond]
        constructor
        · intro hf
          exact absurd hf (by simp)
        · rintro (hx | ⟨n2, hn2, hne, hmem⟩)
          · exact absurd hx hnd
          · have hn2' : n = n2 := Option.some.inj hn2
            subst hn2'
            exact absurd (by simp [hne, hmem]) hcond

-- ===========================================================================
-- C7: lookup semantics of the semantic resolver
-- ===========================================================================

/-- A small vocabulary document used for concrete instantiations. -/
def sampleDoc : SchemaDoc :=
  { columns :=
      [ { name := "customername".data
          aliases := [ "customer".data, "client".data ] },
        { name := "saleamt_ason".data
          aliases := [ "sales".data ]
          aggregation := some "sum".data } ]
    states :=
      [ { key := "maharashtra".data
          value := "Maharashtra".data
          aliases := [ "mh".data ] } ]
    product_categories :=
      [ { key := "lt_cables".data
          business_term := "LT Cables".data
          sql_expression := "itemgroup LIKE CABLES : LT%".data
          aliases := [ "lt".data ] } ]
    derived_measures :=
      [ { name := "average order value".data
          expression := "SUM(saleamt_ason) / COUNT(DISTINCT invno)".data
          aliases := [ "aov".data ] } ]
    measures := [ "saleamt_ason".data ] }

example : get_column_name sampleDoc "nonexistent".data = none := by decide

example : get_product_category_sql sampleDoc "ht cables".data = none := by decide

example : get_measure_sql sampleDoc "unknown thing".data = none := by decide

/-- C7 counterexample.  `get_state_value` does NOT return NotFound for an
unregistered term: `"atlantis"` misses the state cache, yet the lookup
returns the guessed mapping `"Atlantis"` (`term.title()`) instead of
`None`. -/
theorem C7_counterexample :
    dictGet (stripChars (lowerChars "atlantis".data)) (stateCache sampleDoc)
        = none ∧
    get_state_value sampleDoc "atlantis".data = "Atlantis".data := by
  constructor
  · decide
  · decide

/-- C7 (amended).  The column/alias, business-term (product-category) and
derived-metric lookups are case-insensitive exact matches: each succeeds
exactly when the lower-cased (for product categories, also stripped) term
equals a lower-cased canonical name, business term, or registered alias,
and returns `None` otherwise (for product categories under the document
well-formedness assumption that entry keys are non-empty, since Python
`if key:` treats an empty key like a miss; for measures, a term that
resolves to a column counts only when that column is a registered measure).
The state lookup is likewise a case-insensitive exact match against its
cache, but on a miss it returns the title-cased input (a guess) rather
than NotFound. -/
theorem C7_lookup_exact_match (doc : SchemaDoc) (t : List Char)
    (hkeys : ∀ pc ∈ doc.product_categories, pc.key.isEmpty = false) :
    ((get_column_name doc t).isSome = true ↔
      ∃ c ∈ doc.columns, lowerChars c.name = lowerChars t ∨
        ∃ a ∈ c.aliases, lowerChars a = lowerChars t) ∧
    ((get_product_category_sql doc t).isSome = true ↔
      ∃ pc ∈ doc.product_categories,
        List.isPrefixOf "_".data pc.key = false ∧
        (lowerChars pc.business_term = stripChars (lowerChars t) ∨
          ∃ a ∈ pc.aliases, lowerChars a = stripChars (lowerChars t))) ∧
    ((get_measure_sql doc t).isSome = true ↔
      ((∃ dm ∈ doc.derived_measures, lowerChars dm.name = lowerChars t ∨
          ∃ a ∈ dm.aliases, lowerChars a = lowerChars t) ∨
        (∃ n, get_column_name doc t = some n ∧ n.isEmpty = false ∧
          n ∈ doc.measures))) ∧
    (dictGet (stripChars (lowerChars t)) (stateCache doc) = none →
      get_state_value doc t = titleChars t) ∧
    (∀ v, dictGet (stripChars (lowerChars t)) (stateCache doc) = some v →
      get_state_value doc t = v) := by
  refine ⟨get_column_name_isSome_iff doc t,
    get_product_category_sql_isSome_iff doc t hkeys,
    get_measure_sql_isSome_iff doc t, ?_, ?_⟩
  · intro h
    simp [get_state_value, h]
  · intro v h
    simp [get_state_value, h]

/-- Witness for the amended C7: a case-insensitive column-alias hit, a
business-term hit (mixed case, surrounding whitespace), a derived-metric
alias hit, and a state miss falling back to title case. -/
theorem C7_lookup_exact_match_witness :
    (get_column_name sampleDoc "CUSTOMER".data).isSome = true ∧
    (get_product_category_sql sampleDoc " LT Cables ".data).isSome = true ∧
    (get_measure_sql sampleDoc "AOV".data).isSome = true ∧
    get_state_value sampleDoc "atlantis".data =
      titleChars "atlantis".data :=
  ⟨(C7_lookup_exact_match sampleDoc "CUSTOMER".data (by decide)).1.mpr
      (by decide),
    (C7_lookup_exact_match sampleDoc " LT Cables ".data (by decide)).2.1.mpr
      (by decide),
    (C7_lookup_exact_match sampleDoc "AOV".data (by decide)).2.2.1.mpr
      (by decide),
    (C7_lookup_exact_match sampleDoc "atlantis".data (by decide)).2.2.2.1
      (by decide)⟩

-- ===========================================================================
-- C8: alias collisions do not fail construction
-- ===========================================================================

/-- A document in which the alias `sales` is registered under two different
canonical columns. -/
def collideDoc : SchemaDoc :=
  { columns :=
      [ { name := "col_a".data, aliases := [ "sales".data ] },
        { name := "col_b".data, aliases := [ "sales".data ] } ]
    states := [] }

/-- C8 counterexample.  `collideDoc` registers the alias `sales` under two
distinct canonical columns, yet cache construction succeeds (the model of
`_build_caches` is a total function, as is the Python code, which raises no
error) and the lookup silently resolves to the later column. -/
theorem C8_counterexample :
    (∃ c1 ∈ collideDoc.columns, ∃ c2 ∈ collideDoc.columns,
      c1.name ≠ c2.name ∧
        "sales".data ∈ c1.aliases ∧ "sales".data ∈ c2.aliases) ∧
    get_column_name collideDoc "sales".data = some "col_b".data := by
  constructor
  · decide
  · decide

/-- C8 (amended).  Construction never fails on alias collisions; instead the
built cache observes last-writer-wins: a lookup returns the value of the
LAST registration of that key in document order (later columns silently
override earlier ones). -/
theorem C8_last_writer_wins (doc : SchemaDoc) (q : List Char) :
    dictGet q (buildAliasCache doc) =
      ((aliasPairs doc.columns).reverse.find? (fun r => r.1 == q)).map
        (fun r => r.2) := by
  unfold buildAliasCache
  rw [dictGet_foldl]
  cases h : (aliasPairs doc.columns).reverse.find? (fun r => r.1 == q) <;>
    simp [dictGet]
